import Mathlib

/-!
# Notorious — a verification development of the hex-grid pirate rules engine

Shallow embedding of the TypeScript rules engine: axial hex coordinates and
BFS pathfinding (`src/utils/HexMath.ts`), the 19-cell board with islands and
directional impassable edges (`src/core/Board.ts`, `src/core/Hex.ts`,
`src/core/Island.ts`, `src/config/HexConstants.ts`), players
(`src/core/Player.ts`), the chart deck (`src/core/ChartDeck.ts`), the chart
claim validator (`src/core/ChartValidator.ts`), the game state
(`src/core/GameState.ts`) and the five actions
(`src/actions/{SailAction,BuildAction,StealAction,SinkAction,ChartAction}.ts`).

TypeScript mutation is rendered as functional state passing: every `execute`
returns the result together with the successor state.  A TypeScript non-null
assertion (`!`) or a method call on a possibly-`undefined` value is rendered
as an `Option` bind, so `none` models a runtime crash.  Randomness (deck
shuffling) is isolated behind an explicit `shuffle` parameter, mirroring the
injectable-randomness requirement of the design.
-/

namespace Notorious

/-! ## Coordinates — `src/types/CoordinateTypes.ts`, `src/utils/HexMath.ts` -/

/-- Axial hex coordinate with the redundant cube component `s`. -/
structure HexCoord where
  q : Int
  r : Int
  s : Int
deriving DecidableEq, Repr

/-- Function `createHexCoord` computes `s = -(q + r)`. -/
def createHexCoord (q r : Int) : HexCoord := ⟨q, r, -(q + r)⟩

/-- Function `hexEquals` compares only `q` and `r`, like the source. -/
def hexEquals (a b : HexCoord) : Bool := a.q == b.q && a.r == b.r

/-- The six axial direction vectors, in source order (E, NE, NW, W, SW, SE). -/
def DIRECTION_VECTORS : List HexCoord :=
  [createHexCoord 1 0, createHexCoord 1 (-1), createHexCoord 0 (-1),
   createHexCoord (-1) 0, createHexCoord (-1) 1, createHexCoord 0 1]

/-- Neighbor of a hex in direction `dir` (indices taken mod 6). -/
def getNeighbor (c : HexCoord) (dir : Nat) : HexCoord :=
  let d := DIRECTION_VECTORS.getD (dir % 6) (createHexCoord 0 0)
  createHexCoord (c.q + d.q) (c.r + d.r)

/-- All six neighbors of a hex, in direction order. -/
def getAllNeighbors (c : HexCoord) : List HexCoord :=
  DIRECTION_VECTORS.map fun d => createHexCoord (c.q + d.q) (c.r + d.r)

/-- Hex (cube) distance: half the Manhattan distance of the cube triples. -/
def hexDistance (a b : HexCoord) : Nat :=
  ((a.q - b.q).natAbs + (a.r - b.r).natAbs + (a.s - b.s).natAbs) / 2

/-- Two hexes are adjacent when their distance is exactly 1. -/
def areAdjacent (a b : HexCoord) : Bool := hexDistance a b == 1

/-- Direction index (0..5) from `f` to an adjacent `t`; `-1` otherwise. -/
def getDirection (f t : HexCoord) : Int :=
  if areAdjacent f t = false then -1
  else
    match (List.range 6).find? (fun i => hexEquals (getNeighbor f i) t) with
    | some i => (i : Int)
    | none => -1

/-! ## Board cells — `src/config/HexConstants.ts` -/

/-- The fixed 19 hexes of the board (center, ring 1, ring 2), source order. -/
def BOARD_HEXES : List HexCoord :=
  [createHexCoord 0 0,
   createHexCoord 1 0, createHexCoord 1 (-1), createHexCoord 0 (-1),
   createHexCoord (-1) 0, createHexCoord (-1) 1, createHexCoord 0 1,
   createHexCoord 0 (-2), createHexCoord 1 (-2), createHexCoord 2 (-2),
   createHexCoord 2 (-1), createHexCoord 2 0, createHexCoord 1 1,
   createHexCoord 0 2, createHexCoord (-1) 2, createHexCoord (-2) 2,
   createHexCoord (-2) 1, createHexCoord (-2) 0, createHexCoord (-1) (-1)]

/-- A coordinate is on the board when it appears among the 19 fixed hexes. -/
def isOnBoard (c : HexCoord) : Bool :=
  BOARD_HEXES.any fun h => h.q == c.q && h.r == c.r

/-- The on-board neighbors of a coordinate, in direction order. -/
def getValidNeighbors (c : HexCoord) : List HexCoord :=
  (DIRECTION_VECTORS.map fun d => createHexCoord (c.q + d.q) (c.r + d.r)).filter isOnBoard

/-! ## Breadth-first pathfinding — `findPath` in `src/utils/HexMath.ts` -/

/-- A BFS frontier entry: the reached coordinate and the path leading to it. -/
structure BfsItem where
  coord : HexCoord
  path : List HexCoord
deriving Repr

/-- One BFS dequeue step: expand the six neighbors of the head entry in
direction order, skipping visited, blocked, or non-traversable cells, and
return either the finished path (`Sum.inr`) or the grown visited set and
queue (`Sum.inl`), exactly as the source loop body does. -/
def bfsExpand (isBlocked : HexCoord → Bool) (canTraverse : HexCoord → HexCoord → Bool)
    (endC : HexCoord) (cur : BfsItem) (visited : List HexCoord) (queue : List BfsItem) :
    (List HexCoord × List BfsItem) ⊕ List HexCoord :=
  (getAllNeighbors cur.coord).foldl
    (fun acc nb =>
      match acc with
      | Sum.inr found => Sum.inr found
      | Sum.inl (vis, q) =>
        if vis.any (fun v => hexEquals v nb) then Sum.inl (vis, q)
        else if isBlocked nb then Sum.inl (vis, q)
        else if canTraverse cur.coord nb = false then Sum.inl (vis, q)
        else
          let newPath := cur.path ++ [nb]
          if hexEquals nb endC then Sum.inr newPath
          else Sum.inl (nb :: vis, q ++ [⟨nb, newPath⟩]))
    (Sum.inl (visited, queue))

/-- The BFS main loop.  The source has no fuel: its queue only ever receives
unblocked cells, of which the board has at most 19, so a fuel of 100 is never
exhausted for any use in this codebase. -/
def findPathLoop (isBlocked : HexCoord → Bool) (canTraverse : HexCoord → HexCoord → Bool)
    (endC : HexCoord) : Nat → List BfsItem → List HexCoord → List HexCoord
  | 0, _, _ => []
  | _ + 1, [], _ => []
  | fuel + 1, cur :: rest, visited =>
    match bfsExpand isBlocked canTraverse endC cur visited rest with
    | Sum.inr found => found
    | Sum.inl (vis, q) => findPathLoop isBlocked canTraverse endC fuel q vis

/-- Breadth-first shortest path from `start` to `endC`, including both
endpoints; `[start]` when they coincide; `[]` when the end is blocked or
unreachable. -/
def findPath (start endC : HexCoord) (isBlocked : HexCoord → Bool)
    (canTraverse : HexCoord → HexCoord → Bool) : List HexCoord :=
  if hexEquals start endC then [start]
  else if isBlocked endC then []
  else findPathLoop isBlocked canTraverse endC 100 [⟨start, [start]⟩] [start]

/-! ## Ships, islands, hexes — `src/core/{Ship,Island,Hex}.ts` -/

/-- Ship kinds. -/
inductive ShipType where
  | SLOOP
  | GALLEON
  | PORT
deriving DecidableEq, Repr

/-- Influence value per ship kind (`GAME_CONSTANTS.INFLUENCE_VALUES`). -/
def INFLUENCE_VALUES : ShipType → Nat
  | .SLOOP => 1
  | .GALLEON => 2
  | .PORT => 3

/-- A ship on the board: kind plus owner id. -/
structure Ship where
  type : ShipType
  playerId : String
deriving DecidableEq, Repr

/-- Function `Ship.influence` looks up the kind's influence value. -/
def Ship.influence (sh : Ship) : Nat := INFLUENCE_VALUES sh.type

/-- Function `Ship.equals` compares kind and owner. -/
def Ship.equalsShip (a b : Ship) : Bool := a.type == b.type && a.playerId == b.playerId

/-- An island: name, home cell, and the set of impassable edge directions.
Directions are the integers produced by `getDirection` (0..5). -/
structure Island where
  name : String
  hexCoord : HexCoord
  impassableEdges : List Int
deriving DecidableEq, Repr

/-- An island edge is passable when not listed as impassable. -/
def Island.isEdgePassable (i : Island) (edge : Int) : Bool :=
  !(i.impassableEdges.contains edge)

/-- Sailing out of an island cell in a direction requires a passable edge. -/
def Island.canSailInDirection (i : Island) (direction : Int) : Bool :=
  i.isEdgePassable direction

/-- A board cell: coordinate, resident ships, optional island.  The source
keeps ships in a per-owner map; a flat list ordered by insertion is an
equivalent rendering (per-owner views are recovered by filtering, which
preserves each owner's insertion order). -/
structure Hex where
  coord : HexCoord
  ships : List Ship
  island : Option Island
deriving DecidableEq, Repr

/-- Function `Hex.addShip` appends to the owner's ships. -/
def Hex.addShip (h : Hex) (ship : Ship) : Hex :=
  { h with ships := h.ships ++ [ship] }

/-- Remove the first ship equal to `s` (same kind and owner) from a list. -/
def removeFirstShip : List Ship → Ship → List Ship
  | [], _ => []
  | x :: xs, s => if Ship.equalsShip x s then xs else x :: removeFirstShip xs s

/-- Whether the list holds a ship equal to `s`. -/
def containsShip (l : List Ship) (s : Ship) : Bool := l.any (Ship.equalsShip · s)

/-- Function `Hex.removeShip`: remove the first matching ship; flag reports success. -/
def Hex.removeShipB (h : Hex) (ship : Ship) : Hex × Bool :=
  if containsShip h.ships ship then
    ({ h with ships := removeFirstShip h.ships ship }, true)
  else (h, false)

/-- Function `Hex.removeShip`, result state only. -/
def Hex.removeShip (h : Hex) (ship : Ship) : Hex := (h.removeShipB ship).1

/-- Ships of one player in a cell. -/
def Hex.getPlayerShips (h : Hex) (playerId : String) : List Ship :=
  h.ships.filter (fun sh => sh.playerId == playerId)

/-- Total influence of one player in a cell. -/
def Hex.getInfluence (h : Hex) (playerId : String) : Nat :=
  ((h.getPlayerShips playerId).map Ship.influence).sum

/-- Owner ids present in a cell, first-occurrence order. -/
def Hex.getPlayerIds (h : Hex) : List String :=
  h.ships.foldl (fun acc sh => if acc.contains sh.playerId then acc else acc ++ [sh.playerId]) []

/-! ## The board — `src/core/Board.ts` -/

/-- The board: the 19 cells plus the registered islands. -/
structure Board where
  hexes : List Hex
  islands : List Island
deriving DecidableEq, Repr

/-- The freshly initialized board: every fixed cell empty, no islands. -/
def initializeBoard : Board :=
  ⟨BOARD_HEXES.map (fun c => ⟨c, [], none⟩), []⟩

/-- Look up the cell at a coordinate (keyed by `q`,`r`). -/
def Board.getHex (b : Board) (c : HexCoord) : Option Hex :=
  b.hexes.find? (fun h => h.coord.q == c.q && h.coord.r == c.r)

/-- Replace the first cell at a coordinate by `f` of it. -/
def updateHexList : List Hex → HexCoord → (Hex → Hex) → List Hex
  | [], _, _ => []
  | h :: rest, c, f =>
    if h.coord.q == c.q && h.coord.r == c.r then f h :: rest
    else h :: updateHexList rest c f

/-- Functional in-place update of one cell. -/
def Board.updateHex (b : Board) (c : HexCoord) (f : Hex → Hex) : Board :=
  { b with hexes := updateHexList b.hexes c f }

/-- The existing neighboring cells of a coordinate. -/
def Board.getNeighbors (b : Board) (c : HexCoord) : List Hex :=
  (getValidNeighbors c).filterMap b.getHex

/-- Adjacency on the board: hex distance 1 and both cells on the board. -/
def Board.isAdjacent (_ : Board) (c1 c2 : HexCoord) : Bool :=
  areAdjacent c1 c2 && isOnBoard c1 && isOnBoard c2

/-- Whether a ship may sail between two cells: they must be adjacent, and
neither endpoint may host an island whose impassable edges contain the
direction of travel out of that endpoint toward the other. -/
def Board.canSailBetween (b : Board) (f t : HexCoord) : Bool :=
  if b.isAdjacent f t = false then false
  else
    match b.getHex f, b.getHex t with
    | some fromHex, some toHex =>
      let fromBlocked :=
        match fromHex.island with
        | some island =>
          let direction := getDirection f t
          direction != -1 && !(island.canSailInDirection direction)
        | none => false
      if fromBlocked then false
      else
        let toBlocked :=
          match toHex.island with
          | some island =>
            let direction := getDirection t f
            direction != -1 && !(island.canSailInDirection direction)
          | none => false
        if toBlocked then false else true
    | _, _ => false

/-- Put a ship into a cell; flag reports whether the cell exists. -/
def Board.placeShip (b : Board) (c : HexCoord) (ship : Ship) : Board × Bool :=
  match b.getHex c with
  | none => (b, false)
  | some _ => (b.updateHex c (fun h => h.addShip ship), true)

/-- Remove a ship from a cell; flag reports whether it was found. -/
def Board.removeShipAt (b : Board) (c : HexCoord) (ship : Ship) : Board × Bool :=
  match b.getHex c with
  | none => (b, false)
  | some h =>
    let (h', found) := h.removeShipB ship
    (b.updateHex c (fun _ => h'), found)

/-- Move a ship between cells: requires a sailable edge and the ship present
in the source cell; on any failure the board is returned untouched. -/
def Board.moveShip (b : Board) (f t : HexCoord) (ship : Ship) : Board × Bool :=
  if b.canSailBetween f t = false then (b, false)
  else
    match b.getHex f, b.getHex t with
    | some fromHex, some _ =>
      let (fromHex', found) := fromHex.removeShipB ship
      if found = false then (b, false)
      else
        let b1 := b.updateHex f (fun _ => fromHex')
        let b2 := b1.updateHex t (fun h => h.addShip ship)
        (b2, true)
    | _, _ => (b, false)

/-- Influence of a player at a coordinate (0 when the cell is missing). -/
def Board.getInfluence (b : Board) (c : HexCoord) (playerId : String) : Nat :=
  match b.getHex c with
  | some h => h.getInfluence playerId
  | none => 0

/-- Shortest sailable path between two coordinates: off-board cells are
blocked and edges must satisfy `canSailBetween`. -/
def Board.findPath (b : Board) (f t : HexCoord) : List HexCoord :=
  Notorious.findPath f t (fun c => !(isOnBoard c)) (fun x y => b.canSailBetween x y)

/-- Register an island: bind it to its cell and record it. -/
def Board.placeIsland (b : Board) (island : Island) : Board × Bool :=
  match b.getHex island.hexCoord with
  | none => (b, false)
  | some _ =>
    ({ hexes := updateHexList b.hexes island.hexCoord (fun h => { h with island := some island }),
       islands := b.islands ++ [island] }, true)

/-- The registered islands. -/
def Board.getIslands (b : Board) : List Island := b.islands

/-! ## Game constants — `GAME_CONSTANTS` in `src/types/GameTypes.ts` -/

/-- Notoriety needed to trigger the end of the game. -/
def WINNING_NOTORIETY : Nat := 24

/-- Captains every player starts with. -/
def STARTING_CAPTAINS : Nat := 2

/-- Notoriety thresholds that each irreversibly unlock one extra captain. -/
def CAPTAIN_UNLOCK_THRESHOLDS : List Nat := [5, 12]

/-- Sloops in a player's starting inventory. -/
def STARTING_SLOOPS : Nat := 4

/-- Galleons in a player's starting inventory. -/
def STARTING_GALLEONS : Nat := 2

/-- Doubloons a player starts with. -/
def STARTING_DOUBLOONS : Nat := 0

/-! ## Charts — `src/core/Chart.ts` (data only, as needed by the claims) -/

/-- A deck card, identified by its unique id (the claims under study use
cards only through their identity). -/
structure Chart where
  id : String
deriving DecidableEq, Repr

/-- A Smuggler Route chart names its two islands. -/
structure SmugglerRouteChart where
  id : String
  islandA : String
  islandB : String
deriving DecidableEq, Repr

/-! ## Players — `src/core/Player.ts` -/

/-- A player: score, currency, captains, ship inventory, port, hand. -/
structure Player where
  id : String
  notoriety : Nat
  doubloons : Nat
  captainCount : Nat
  sloops : Nat
  galleons : Nat
  portLocation : Option HexCoord
  charts : List Chart
deriving DecidableEq, Repr

/-- The two inventory keys (`'sloops' | 'galleons'` in the source). -/
inductive InvKind where
  | sloops
  | galleons
deriving DecidableEq, Repr

/-- Inventory count under a key. -/
def Player.invCount (p : Player) : InvKind → Nat
  | .sloops => p.sloops
  | .galleons => p.galleons

/-- Replace the inventory count under a key. -/
def Player.setInv (p : Player) : InvKind → Nat → Player
  | .sloops, n => { p with sloops := n }
  | .galleons, n => { p with galleons := n }

/-- Function `gainNotoriety`: add the points, then bump the captain count once for
every configured unlock threshold crossed by this gain. -/
def Player.gainNotoriety (p : Player) (amount : Nat) : Player :=
  let oldNotoriety := p.notoriety
  let newNotoriety := oldNotoriety + amount
  let newCaptains := CAPTAIN_UNLOCK_THRESHOLDS.foldl
    (fun c threshold =>
      if oldNotoriety < threshold && newNotoriety ≥ threshold then c + 1 else c)
    p.captainCount
  { p with notoriety := newNotoriety, captainCount := newCaptains }

/-- Function `gainDoubloons`. -/
def Player.gainDoubloons (p : Player) (amount : Nat) : Player :=
  { p with doubloons := p.doubloons + amount }

/-- Function `spendDoubloons`: refuse (returning `false`, state untouched) when the
balance is insufficient. -/
def Player.spendDoubloons (p : Player) (amount : Nat) : Player × Bool :=
  if p.doubloons < amount then (p, false)
  else ({ p with doubloons := p.doubloons - amount }, true)

/-- Function `hasShips`: at least `count` of the kind in inventory. -/
def Player.hasShips (p : Player) (kind : InvKind) (count : Nat) : Bool :=
  p.invCount kind ≥ count

/-- Function `spendShips`: decrement inventory, refusing when insufficient. -/
def Player.spendShips (p : Player) (kind : InvKind) (count : Nat) : Player × Bool :=
  if p.hasShips kind count = false then (p, false)
  else (p.setInv kind (p.invCount kind - count), true)

/-- Function `returnShips`: put ships removed from the board back into inventory. -/
def Player.returnShips (p : Player) (kind : InvKind) (count : Nat) : Player :=
  p.setInv kind (p.invCount kind + count)

/-- Function `hasWon`: reached the winning notoriety. -/
def Player.hasWon (p : Player) : Bool := p.notoriety ≥ WINNING_NOTORIETY

/-- Function `getFinalScore`: notoriety plus doubloons. -/
def Player.getFinalScore (p : Player) : Nat := p.notoriety + p.doubloons

/-! ## Chart deck — `src/core/ChartDeck.ts` -/

/-- Draw and discard piles; the back of `drawPile` is the next card drawn. -/
structure ChartDeck where
  drawPile : List Chart
  discardPile : List Chart
deriving DecidableEq, Repr

/-- The `drawCharts` loop: each of `count` rounds reshuffles the discard
pile into the empty draw pile when possible (stopping if both piles are
exhausted) and then pops the back card.  The Fisher-Yates `shuffle` of the
source is the injected `shuffle` parameter. -/
def drawChartsLoop (shuffle : List Chart → List Chart) :
    Nat → ChartDeck → List Chart → List Chart × ChartDeck
  | 0, deck, drawn => (drawn, deck)
  | count + 1, deck, drawn =>
    if deck.drawPile.isEmpty && deck.discardPile.isEmpty then (drawn, deck)
    else
      let d : ChartDeck :=
        if deck.drawPile.isEmpty then ⟨shuffle deck.discardPile, []⟩ else deck
      match d.drawPile.getLast? with
      | some chart =>
        drawChartsLoop shuffle count ⟨d.drawPile.dropLast, d.discardPile⟩ (drawn ++ [chart])
      | none => drawChartsLoop shuffle count d drawn

/-- Function `ChartDeck.drawCharts`: draw `count` cards, reshuffling as needed. -/
def ChartDeck.drawCharts (deck : ChartDeck) (shuffle : List Chart → List Chart)
    (count : Nat) : List Chart × ChartDeck :=
  drawChartsLoop shuffle count deck []

/-- Function `ChartDeck.discardCharts`: append to the discard pile. -/
def ChartDeck.discardCharts (deck : ChartDeck) (charts : List Chart) : ChartDeck :=
  { deck with discardPile := deck.discardPile ++ charts }

/-! ## Game state — `src/core/GameState.ts` -/

/-- The authoritative game state (the parts the claims exercise). -/
structure GameState where
  players : List Player
  board : Board
  chartDeck : ChartDeck
  windTokenHolder : Option String
deriving DecidableEq, Repr

/-- Find a player by id (first match, like `Array.prototype.find`). -/
def GameState.getPlayer (s : GameState) (playerId : String) : Option Player :=
  s.players.find? (fun p => p.id == playerId)

/-- Replace the first player with the given id by `f` of it (the functional
rendering of mutating the object `find` returned). -/
def updateFirstPlayer : List Player → String → (Player → Player) → List Player
  | [], _, _ => []
  | p :: rest, playerId, f =>
    if p.id == playerId then f p :: rest
    else p :: updateFirstPlayer rest playerId f

/-- Update one player in the state. -/
def GameState.updatePlayer (s : GameState) (playerId : String) (f : Player → Player) :
    GameState :=
  { s with players := updateFirstPlayer s.players playerId f }

/-- Function `giveWindToken`. -/
def GameState.giveWindToken (s : GameState) (playerId : String) : GameState :=
  { s with windTokenHolder := some playerId }

/-- Function `determineWinner`: scan the players keeping the first one whose
`getFinalScore` strictly exceeds every score seen so far (initial best
`-1`). -/
def determineWinner (players : List Player) : Option Player :=
  (players.foldl
    (fun acc p =>
      if (p.getFinalScore : Int) > acc.1 then ((p.getFinalScore : Int), some p) else acc)
    ((-1 : Int), (none : Option Player))).2

/-! ## Action plumbing — result records and `BaseAction` helpers -/

/-- Validation outcome: a flag plus an optional reason. -/
structure ValidationResult where
  valid : Bool
  reason : String := ""
deriving DecidableEq, Repr

/-- Action outcome record. -/
structure ActionResult where
  success : Bool
  message : String
  notorietyGained : Nat := 0
  doubloonsGained : Nat := 0
  drawnCharts : List Chart := []
deriving DecidableEq, Repr

/-- Modelled from the spec: `BaseAction.validatePlayer` (the base class file
`src/actions/Action.ts` is not in the source tree; §4.3 requires every
action to first check that the acting player exists, returning a structured
failure otherwise). -/
def validatePlayer (s : GameState) (playerId : String) : ValidationResult :=
  match s.getPlayer playerId with
  | some _ => { valid := true }
  | none => { valid := false, reason := "Player not found" }

/-- Modelled from the spec: `BaseAction.createFailureResult` (base class not
in the source tree; §7 requires validation failures to return a structured
failure performing no mutation). -/
def createFailureResult (message : String) : ActionResult :=
  { success := false, message := message }

/-- Modelled from the spec: `BaseAction.createSuccessResult` (base class not
in the source tree). -/
def createSuccessResult (message : String) (notorietyGained : Nat := 0)
    (doubloonsGained : Nat := 0) : ActionResult :=
  { success := true, message := message, notorietyGained := notorietyGained,
    doubloonsGained := doubloonsGained }

/-- The source idiom `validation.reason || 'Invalid action'`. -/
def reasonOr (reason : String) : String :=
  if reason = "" then "Invalid action" else reason

/-! ## Sail — `src/actions/SailAction.ts` -/

/-- One requested ship move. -/
structure SailMove where
  ship : ShipType
  fromHex : HexCoord
  toHex : HexCoord
deriving DecidableEq, Repr

/-- The Sail action: a batch of moves plus the bribes elected. -/
structure SailAction where
  playerId : String
  moves : List SailMove
  bribesUsed : Nat
deriving DecidableEq, Repr

/-- Function `SailAction.isValidPath`: a 1-hop move needs a sailable edge; a 2-hop
move needs some neighbor of the source that is 1 hop from the target with
both edges sailable; anything else is invalid. -/
def SailAction.isValidPath (f t : HexCoord) (board : Board) : Bool :=
  let distance := hexDistance f t
  if distance == 1 then board.canSailBetween f t
  else if distance == 2 then
    (board.getNeighbors f).any fun neighbor =>
      hexDistance neighbor.coord t == 1 &&
      board.canSailBetween f neighbor.coord &&
      board.canSailBetween neighbor.coord t
  else false

/-- The per-move validation loop of `SailAction.validate`: both cells must
exist, the player must have a ship of the requested kind at the source, and
the path must be valid; the first failure wins. -/
def SailAction.validateMoves (board : Board) (playerId : String) :
    List SailMove → ValidationResult
  | [] => { valid := true }
  | move :: rest =>
    match board.getHex move.fromHex, board.getHex move.toHex with
    | some fromHex, some _ =>
      if (fromHex.getPlayerShips playerId).any (fun sh => sh.type == move.ship) = false then
        { valid := false, reason := "No ship of the requested type at source hex" }
      else if SailAction.isValidPath move.fromHex move.toHex board = false then
        { valid := false, reason := "Invalid path (blocked by island or too far)" }
      else SailAction.validateMoves board playerId rest
    | _, _ => { valid := false, reason := "Invalid hex coordinates" }

/-- Function `SailAction.validate`: player exists, bribes covered by doubloons, every
move individually valid. -/
def SailAction.validate (a : SailAction) (s : GameState) : ValidationResult :=
  let playerCheck := validatePlayer s a.playerId
  if playerCheck.valid = false then playerCheck
  else
    match s.getPlayer a.playerId with
    | none => playerCheck
    | some player =>
      if a.bribesUsed > player.doubloons then
        { valid := false, reason := "Not enough doubloons for bribes" }
      else SailAction.validateMoves s.board a.playerId a.moves

/-- The move-execution loop of `SailAction.execute`: fetch the source cell
and the first ship of the kind (non-null assertions in the source, hence
`Option`), then `Board.moveShip`, whose returned flag the source ignores. -/
def SailAction.executeMoves (playerId : String) :
    Board → List SailMove → Option Board
  | board, [] => some board
  | board, move :: rest =>
    match board.getHex move.fromHex with
    | none => none
    | some fromHex =>
      match (fromHex.getPlayerShips playerId).find? (fun sh => sh.type == move.ship) with
      | none => none
      | some shipToMove =>
        SailAction.executeMoves playerId (board.moveShip move.fromHex move.toHex shipToMove).1 rest

/-- Function `SailAction.execute`: re-validate (returning an untouched state on
failure), spend bribes, then run the moves. -/
def SailAction.execute (a : SailAction) (s : GameState) : Option (ActionResult × GameState) :=
  let validation := a.validate s
  if validation.valid = false then some (createFailureResult (reasonOr validation.reason), s)
  else
    match s.getPlayer a.playerId with
    | none => none
    | some _ =>
      let s1 :=
        if a.bribesUsed > 0 then
          s.updatePlayer a.playerId (fun p => (p.spendDoubloons a.bribesUsed).1)
        else s
      match SailAction.executeMoves a.playerId s1.board a.moves with
      | none => none
      | some board1 => some (createSuccessResult "Sailed ships", { s1 with board := board1 })

/-! ## Build — `src/actions/BuildAction.ts` -/

/-- One requested ship placement. -/
structure BuildPlacement where
  hex : HexCoord
  shipType : ShipType
deriving DecidableEq, Repr

/-- The Build action. -/
structure BuildAction where
  playerId : String
  placements : List BuildPlacement
  bribesUsed : Nat
deriving DecidableEq, Repr

/-- The per-placement validation loop of `BuildAction.validate`: the cell
exists; the player has pieces there or it is their port cell; no enemy
pieces unless it is the port cell; and the inventory holds a ship of the
placed kind (each placement checked against the full inventory, not
cumulatively). -/
def BuildAction.validatePlacements (board : Board) (player : Player) (playerId : String) :
    List BuildPlacement → ValidationResult
  | [] => { valid := true }
  | placement :: rest =>
    match board.getHex placement.hex with
    | none => { valid := false, reason := "Invalid hex coordinate" }
    | some hex =>
      let hasPlayerPieces := (hex.getPlayerShips playerId).length > 0
      let isPortHex :=
        match player.portLocation with
        | some l => l.q == placement.hex.q && l.r == placement.hex.r
        | none => false
      if hasPlayerPieces = false && isPortHex = false then
        { valid := false, reason := "Must build in hex with your pieces or port" }
      else
        let hasEnemyPieces := hex.getPlayerIds.any (fun i => i != playerId)
        if hasEnemyPieces && isPortHex = false then
          { valid := false, reason := "Cannot build in hex with enemy pieces (except port hex)" }
        else if placement.shipType == ShipType.SLOOP && player.hasShips .sloops 1 = false then
          { valid := false, reason := "Not enough sloops" }
        else if placement.shipType == ShipType.GALLEON && player.hasShips .galleons 1 = false then
          { valid := false, reason := "Not enough galleons" }
        else BuildAction.validatePlacements board player playerId rest

/-- Function `BuildAction.validate`. -/
def BuildAction.validate (a : BuildAction) (s : GameState) : ValidationResult :=
  let playerCheck := validatePlayer s a.playerId
  if playerCheck.valid = false then playerCheck
  else
    match s.getPlayer a.playerId with
    | none => playerCheck
    | some player =>
      if a.bribesUsed > player.doubloons then
        { valid := false, reason := "Not enough doubloons for bribes" }
      else BuildAction.validatePlacements s.board player a.playerId a.placements

/-- The placement loop of `BuildAction.execute`: a sloop placement creates a
sloop, any other kind creates a galleon; `spendShips` runs with its failure
flag ignored; the ship is placed on the board unconditionally. -/
def BuildAction.executePlacements (playerId : String) :
    Player → Board → List BuildPlacement → Player × Board
  | player, board, [] => (player, board)
  | player, board, placement :: rest =>
    let ship : Ship :=
      if placement.shipType == ShipType.SLOOP then ⟨ShipType.SLOOP, playerId⟩
      else ⟨ShipType.GALLEON, playerId⟩
    let player1 :=
      if placement.shipType == ShipType.SLOOP then (player.spendShips .sloops 1).1
      else (player.spendShips .galleons 1).1
    let board1 := (board.placeShip placement.hex ship).1
    BuildAction.executePlacements playerId player1 board1 rest

/-- Function `BuildAction.execute`: re-validate, spend bribes, run the placements. -/
def BuildAction.execute (a : BuildAction) (s : GameState) : Option (ActionResult × GameState) :=
  let validation := a.validate s
  if validation.valid = false then some (createFailureResult (reasonOr validation.reason), s)
  else
    match s.getPlayer a.playerId with
    | none => none
    | some player =>
      let player1 :=
        if a.bribesUsed > 0 then (player.spendDoubloons a.bribesUsed).1 else player
      let (player2, board1) := BuildAction.executePlacements a.playerId player1 s.board a.placements
      let s1 := { s.updatePlayer a.playerId (fun _ => player2) with board := board1 }
      some (createSuccessResult "Placed ships", s1)

/-! ## Steal — `src/actions/StealAction.ts` -/

/-- The Steal action (no bribes). -/
structure StealAction where
  playerId : String
  targetHex : HexCoord
  targetPlayerId : String
deriving DecidableEq, Repr

/-- Function `StealAction.validate`: the cell exists, the player has a piece there,
and the target has a sloop there. -/
def StealAction.validate (a : StealAction) (s : GameState) : ValidationResult :=
  let playerCheck := validatePlayer s a.playerId
  if playerCheck.valid = false then playerCheck
  else
    match s.board.getHex a.targetHex with
    | none => { valid := false, reason := "Invalid hex coordinate" }
    | some hex =>
      if (hex.getPlayerShips a.playerId).length = 0 then
        { valid := false, reason := "You have no pieces in this hex" }
      else if (hex.getPlayerShips a.targetPlayerId).any (fun sh => sh.type == ShipType.SLOOP) = false then
        { valid := false, reason := "Target has no sloop in this hex" }
      else { valid := true }

/-- Function `StealAction.execute`: remove the target's first sloop from the cell,
return it to the opponent's inventory, and (when the inventory allows) place
one of the acting player's sloops there. -/
def StealAction.execute (a : StealAction) (s : GameState) : Option (ActionResult × GameState) :=
  let validation := a.validate s
  if validation.valid = false then some (createFailureResult (reasonOr validation.reason), s)
  else
    match s.getPlayer a.playerId, s.board.getHex a.targetHex with
    | some player, some hex =>
      match (hex.getPlayerShips a.targetPlayerId).find? (fun sh => sh.type == ShipType.SLOOP) with
      | none => none
      | some sloopToRemove =>
        let s1 := { s with board := s.board.updateHex a.targetHex (fun _ => hex.removeShip sloopToRemove) }
        let s2 :=
          match s1.getPlayer a.targetPlayerId with
          | some _ => s1.updatePlayer a.targetPlayerId (fun opp => opp.returnShips .sloops 1)
          | none => s1
        let s3 :=
          if player.hasShips .sloops 1 then
            let newSloop : Ship := ⟨ShipType.SLOOP, a.playerId⟩
            let s3a := { s2 with board := s2.board.updateHex a.targetHex (fun h => h.addShip newSloop) }
            s3a.updatePlayer a.playerId (fun p => (p.spendShips .sloops 1).1)
          else s2
        some (createSuccessResult "Stole opponents sloop", s3)
    | _, _ => none

/-! ## Sink — `src/actions/SinkAction.ts` -/

/-- The Sink action: primary target plus the two optional bribe
enhancements (a pre-sink sloop relocation and an additional sink). -/
structure SinkAction where
  playerId : String
  targetHex : HexCoord
  targetShip : ShipType
  targetPlayerId : String
  bribesUsed : Nat
  moveSloop : Option (HexCoord × HexCoord)
  additionalSink : Option (ShipType × String)
deriving DecidableEq, Repr

/-- Function `SinkAction.validate`: bribes covered; the optional sloop relocation has
existing cells, a sailable edge and a sloop to move; the target cell exists
and holds one of the player's pieces and a target ship of the named kind;
sinking a galleon needs influence at least the target owner's.  The
additional sink is not inspected. -/
def SinkAction.validate (a : SinkAction) (s : GameState) : ValidationResult :=
  let playerCheck := validatePlayer s a.playerId
  if playerCheck.valid = false then playerCheck
  else
    match s.getPlayer a.playerId with
    | none => playerCheck
    | some player =>
      if a.bribesUsed > player.doubloons then
        { valid := false, reason := "Not enough doubloons for bribes" }
      else
        let sloopCheck : ValidationResult :=
          match a.moveSloop with
          | none => { valid := true }
          | some (f, t) =>
            match s.board.getHex f, s.board.getHex t with
            | some fromHex, some _ =>
              if s.board.canSailBetween f t = false then
                { valid := false, reason := "Cannot move sloop along this path" }
              else if (fromHex.getPlayerShips a.playerId).any (fun sh => sh.type == ShipType.SLOOP) = false then
                { valid := false, reason := "No sloop to move" }
              else { valid := true }
            | _, _ => { valid := false, reason := "Invalid sloop movement hexes" }
        if sloopCheck.valid = false then sloopCheck
        else
          match s.board.getHex a.targetHex with
          | none => { valid := false, reason := "Invalid hex coordinate" }
          | some hex =>
            if (hex.getPlayerShips a.playerId).length = 0 then
              { valid := false, reason := "You have no pieces in this hex" }
            else if (hex.getPlayerShips a.targetPlayerId).any (fun sh => sh.type == a.targetShip) = false then
              { valid := false, reason := "Target ship not found in hex" }
            else if a.targetShip == ShipType.GALLEON &&
                hex.getInfluence a.playerId < hex.getInfluence a.targetPlayerId then
              { valid := false, reason := "Not enough influence to sink Galleon" }
            else { valid := true }

/-- The sloop-relocation step of `SinkAction.execute` (bribe 1): move the
player's first sloop out of the named cell, ignoring `moveShip`'s flag. -/
def SinkAction.moveSloopStep (playerId : String) (board : Board) :
    Option (HexCoord × HexCoord) → Option Board
  | none => some board
  | some (f, t) =>
    match board.getHex f with
    | none => none
    | some fromHex =>
      match (fromHex.getPlayerShips playerId).find? (fun sh => sh.type == ShipType.SLOOP) with
      | none => none
      | some sloop => some (board.moveShip f t sloop).1

/-- Returning a sunk ship of a kind to its owner's inventory (skipped when
the owner is not a registered player, and for sunk ports). -/
def SinkAction.returnSunkShip (s : GameState) (ownerId : String) (kind : ShipType) : GameState :=
  match s.getPlayer ownerId with
  | none => s
  | some _ =>
    if kind == ShipType.SLOOP then s.updatePlayer ownerId (fun t => t.returnShips .sloops 1)
    else if kind == ShipType.GALLEON then s.updatePlayer ownerId (fun t => t.returnShips .galleons 1)
    else s

/-- The additional-sink step of `SinkAction.execute` (bribe 2): in the same
(already primary-sunk) cell, remove the first ship of the named kind owned
by the named player — if present, silently skipping otherwise — and return
it to that owner's inventory.  No influence check and no reward. -/
def SinkAction.additionalSinkStep (targetHex : HexCoord) (hex1 : Hex) (s : GameState) :
    Option (ShipType × String) → GameState
  | none => s
  | some (kind, addPid) =>
    match (hex1.getPlayerShips addPid).find? (fun sh => sh.type == kind) with
    | none => s
    | some addShip =>
      let s5 := { s with board := s.board.updateHex targetHex (fun _ => hex1.removeShip addShip) }
      SinkAction.returnSunkShip s5 addPid kind

/-- The body of `SinkAction.execute` after the bribe spend, on the state
`s1` with the bribes already paid: relocate the sloop, remove the primary
target ship (returning it to its owner's inventory), award notoriety when
the target owner is at least as notorious, then run the additional sink. -/
def SinkAction.executeCore (a : SinkAction) (s1 : GameState) : Option (ActionResult × GameState) :=
  match SinkAction.moveSloopStep a.playerId s1.board a.moveSloop with
  | none => none
  | some boardM =>
    match boardM.getHex a.targetHex with
    | none => none
    | some hex =>
      match (hex.getPlayerShips a.targetPlayerId).find? (fun sh => sh.type == a.targetShip) with
      | none => none
      | some shipToSink =>
        let hex1 := hex.removeShip shipToSink
        let s2 := { s1 with board := boardM.updateHex a.targetHex (fun _ => hex1) }
        let s3 := SinkAction.returnSunkShip s2 a.targetPlayerId a.targetShip
        let (notorietyGained, s4) :=
          match s3.getPlayer a.targetPlayerId, s3.getPlayer a.playerId with
          | some target, some player =>
            if target.notoriety ≥ player.notoriety then
              let n : Nat :=
                if a.targetShip == ShipType.SLOOP then 1
                else if a.targetShip == ShipType.GALLEON then 3
                else 0
              (n, s3.updatePlayer a.playerId (fun p => p.gainNotoriety n))
            else (0, s3)
          | _, _ => (0, s3)
        let s5 := SinkAction.additionalSinkStep a.targetHex hex1 s4 a.additionalSink
        some (createSuccessResult "Sunk ship" notorietyGained, s5)

/-- Function `SinkAction.execute`: re-validate, spend bribes, then run the core. -/
def SinkAction.execute (a : SinkAction) (s : GameState) : Option (ActionResult × GameState) :=
  let validation := a.validate s
  if validation.valid = false then some (createFailureResult (reasonOr validation.reason), s)
  else
    match s.getPlayer a.playerId with
    | none => none
    | some _ =>
      a.executeCore
        (if a.bribesUsed > 0 then
          s.updatePlayer a.playerId (fun p => (p.spendDoubloons a.bribesUsed).1)
        else s)

/-! ## Chart — `src/actions/ChartAction.ts` -/

/-- The Chart action: bribe flags, the selection (empty before the UI round
trip), and the pending draw (`null` before the first execution). -/
structure ChartAction where
  playerId : String
  bribesUsed : Nat
  drawExtra : Bool
  keepExtra : Bool
  selectedChartIds : List String
  drawnCharts : Option (List Chart)
deriving DecidableEq, Repr

/-- Function `ChartAction.validate`: bribes covered; when a selection is supplied its
size must equal the keep quota. -/
def ChartAction.validate (a : ChartAction) (s : GameState) : ValidationResult :=
  let playerCheck := validatePlayer s a.playerId
  if playerCheck.valid = false then playerCheck
  else
    match s.getPlayer a.playerId with
    | none => playerCheck
    | some player =>
      if a.bribesUsed > player.doubloons then
        { valid := false, reason := "Not enough doubloons for bribes" }
      else if a.selectedChartIds.length > 0 then
        let keepCount := if a.keepExtra then 2 else 1
        if a.selectedChartIds.length ≠ keepCount then
          { valid := false, reason := "Must select exactly the keep quota of charts" }
        else { valid := true }
      else { valid := true }

/-- Function `ChartAction.execute`.  With no selection and no pending draw: spend the
bribes, draw from the deck, and return an incomplete result
(`success = false`, message `CHART_SELECTION_REQUIRED`) carrying the drawn
cards.  Otherwise: split the pending (or freshly drawn) cards by the
selection, add the kept ones to the hand, discard the rest, and hand over
the wind token. -/
def ChartAction.execute (shuffle : List Chart → List Chart) (a : ChartAction)
    (s : GameState) : Option (ActionResult × GameState) :=
  let validation := a.validate s
  if validation.valid = false then some (createFailureResult (reasonOr validation.reason), s)
  else
    match s.getPlayer a.playerId with
    | none => none
    | some _ =>
      let drawCount := if a.drawExtra then 3 else 2
      if a.selectedChartIds.length = 0 && a.drawnCharts == none then
        let s1 :=
          if a.bribesUsed > 0 then
            s.updatePlayer a.playerId (fun p => (p.spendDoubloons a.bribesUsed).1)
          else s
        let (drawn, deck1) := s1.chartDeck.drawCharts shuffle drawCount
        let s2 := { s1 with chartDeck := deck1 }
        some ({ success := false, message := "CHART_SELECTION_REQUIRED",
                notorietyGained := 0, doubloonsGained := 0, drawnCharts := drawn }, s2)
      else
        let (charts, s1) :=
          match a.drawnCharts with
          | some cs => (cs, s)
          | none =>
            let (drawn, deck1) := s.chartDeck.drawCharts shuffle drawCount
            (drawn, { s with chartDeck := deck1 })
        let chartsToKeep := charts.filter (fun c => a.selectedChartIds.contains c.id)
        let chartsToDiscard := charts.filter (fun c => (a.selectedChartIds.contains c.id) = false)
        let s2 := s1.updatePlayer a.playerId (fun p => { p with charts := p.charts ++ chartsToKeep })
        let s3 := { s2 with chartDeck := s2.chartDeck.discardCharts chartsToDiscard }
        let s4 := s3.giveWindToken a.playerId
        some (createSuccessResult "Drew charts and gained the Wind token", s4)

/-! ## Chart claim validation — `src/core/ChartValidator.ts` -/

/-- The path-walking loop of `canClaimSmugglerRoute`: every cell of the path
must exist and hold at least one of the claimant's ships. -/
def checkRouteCells (board : Board) (playerId : String) :
    List HexCoord → ValidationResult
  | [] => { valid := true }
  | c :: rest =>
    match board.getHex c with
    | none => { valid := false, reason := "Hex not found on path" }
    | some hex =>
      if (hex.getPlayerShips playerId).length = 0 then
        { valid := false, reason := "Need at least one ship on every hex of the path" }
      else checkRouteCells board playerId rest

/-- Function `ChartValidator.canClaimSmugglerRoute`: both islands must be registered,
a sailable path must exist between their cells, and the claimant must have a
ship on every cell of the discovered path. -/
def canClaimSmugglerRoute (chart : SmugglerRouteChart) (playerId : String)
    (board : Board) : ValidationResult :=
  match board.getIslands.find? (fun i => i.name == chart.islandA),
        board.getIslands.find? (fun i => i.name == chart.islandB) with
  | some islandA, some islandB =>
    let path := board.findPath islandA.hexCoord islandB.hexCoord
    if path.length = 0 then
      { valid := false, reason := "No sailable path exists between the islands" }
    else checkRouteCells board playerId path
  | _, _ => { valid := false, reason := "One or both islands not found" }

/-- Function `ChartValidator.calculateSmugglerRouteReward`: the length (cell count)
of the discovered path, 0 when an island is missing. -/
def calculateSmugglerRouteReward (chart : SmugglerRouteChart) (board : Board) : Nat :=
  match board.getIslands.find? (fun i => i.name == chart.islandA),
        board.getIslands.find? (fun i => i.name == chart.islandB) with
  | some islandA, some islandB => (board.findPath islandA.hexCoord islandB.hexCoord).length
  | _, _ => 0

/-! ## Derived counting used by the conservation claims -/

/-- On-board ships of one kind owned by one player, summed over all cells. -/
def Board.countPlayerShipsOfType (b : Board) (playerId : String) (t : ShipType) : Nat :=
  (b.hexes.map (fun h => (h.ships.filter (fun sh => sh.playerId == playerId && sh.type == t)).length)).sum

/-- A player's inventory count for an on-board ship kind (ports have no
inventory). -/
def invOfShipType (p : Player) : ShipType → Nat
  | .SLOOP => p.sloops
  | .GALLEON => p.galleons
  | .PORT => 0

/-- On-board plus inventory total of a kind for a player (0 inventory when
the player id is unknown). -/
def GameState.shipTotal (s : GameState) (playerId : String) (t : ShipType) : Nat :=
  s.board.countPlayerShipsOfType playerId t +
    (match s.getPlayer playerId with
     | some p => invOfShipType p t
     | none => 0)

/-! ## Concrete test fixtures used by the evaluation theorems and witnesses -/

/-- A state with no registered players (any action fails its player check). -/
def sNoPlayers : GameState := ⟨[], initializeBoard, ⟨[], []⟩, none⟩

/-- A player with 24 notoriety and no doubloons. -/
def playerHighNotoriety : Player := ⟨"P1", 24, 0, 2, 0, 0, none, []⟩

/-- A player with 20 notoriety and 10 doubloons (final score 30). -/
def playerRichLowNotoriety : Player := ⟨"P2", 20, 10, 2, 0, 0, none, []⟩

/-- Board with one sloop of player A on each of the two opposite rim cells
`(-2,0)` and `(2,0)`. -/
def boardTwoSloops : Board :=
  ((initializeBoard.placeShip (createHexCoord (-2) 0) ⟨ShipType.SLOOP, "A"⟩).1.placeShip
    (createHexCoord 2 0) ⟨ShipType.SLOOP, "A"⟩).1

/-- Player A with no doubloons and a full starting inventory. -/
def playerAPlain : Player := ⟨"A", 0, 0, 2, 4, 2, none, []⟩

/-- State for the Sail budget scenario: A owns sloops at `(-2,0)` and
`(2,0)`, no doubloons. -/
def sSailBudget : GameState := ⟨[playerAPlain], boardTwoSloops, ⟨[], []⟩, none⟩

/-- Sail action requesting two 2-hex moves (total hop distance 4), no
bribes. -/
def sailTwoDoubleMoves : SailAction :=
  ⟨"A", [⟨ShipType.SLOOP, createHexCoord (-2) 0, createHexCoord 0 0⟩,
         ⟨ShipType.SLOOP, createHexCoord 2 0, createHexCoord 0 0⟩], 0⟩

/-- Board with a single sloop of player A at `(-2,0)`. -/
def boardOneSloop : Board :=
  (initializeBoard.placeShip (createHexCoord (-2) 0) ⟨ShipType.SLOOP, "A"⟩).1

/-- State for the 2-hex Sail execution scenario. -/
def sSailTwoHex : GameState := ⟨[playerAPlain], boardOneSloop, ⟨[], []⟩, none⟩

/-- Sail action moving the single sloop 2 hexes, `(-2,0)` to `(0,0)`. -/
def sailOneDoubleMove : SailAction :=
  ⟨"A", [⟨ShipType.SLOOP, createHexCoord (-2) 0, createHexCoord 0 0⟩], 0⟩

/-- Player A with exactly one sloop in inventory and a port at `(0,0)`. -/
def playerOneSloopInv : Player := ⟨"A", 0, 0, 2, 1, 0, some (createHexCoord 0 0), []⟩

/-- State for the Build conservation scenario. -/
def sBuildOneSloop : GameState := ⟨[playerOneSloopInv], initializeBoard, ⟨[], []⟩, none⟩

/-- Build action placing two sloops at the port cell. -/
def buildTwoSloops : BuildAction :=
  ⟨"A", [⟨createHexCoord 0 0, ShipType.SLOOP⟩, ⟨createHexCoord 0 0, ShipType.SLOOP⟩], 0⟩

/-- Board for the additional-sink scenario: at `(0,0)`, A has a sloop
(influence 1) while B has a sloop and a galleon (influence 3). -/
def boardSinkExtra : Board :=
  (((initializeBoard.placeShip (createHexCoord 0 0) ⟨ShipType.SLOOP, "A"⟩).1.placeShip
      (createHexCoord 0 0) ⟨ShipType.SLOOP, "B"⟩).1.placeShip
      (createHexCoord 0 0) ⟨ShipType.GALLEON, "B"⟩).1

/-- Acting player of the additional-sink scenario (1 doubloon for the
bribe). -/
def playerSinkActor : Player := ⟨"A", 0, 1, 2, 0, 0, none, []⟩

/-- Victim of the additional-sink scenario. -/
def playerSinkVictim : Player := ⟨"B", 0, 0, 2, 0, 0, none, []⟩

/-- State for the additional-sink scenario. -/
def sSinkExtra : GameState := ⟨[playerSinkActor, playerSinkVictim], boardSinkExtra, ⟨[], []⟩, none⟩

/-- Sink of B's sloop at `(0,0)` with the additional-sink enhancement aimed
at B's galleon, one bribe. -/
def sinkWithExtra : SinkAction :=
  ⟨"A", createHexCoord 0 0, ShipType.SLOOP, "B", 1, none, some (ShipType.GALLEON, "B")⟩

/-- Third player of the amended-additional-sink scenario. -/
def playerThird : Player := ⟨"C", 0, 0, 2, 0, 0, none, []⟩

/-- Board for the amended-additional-sink scenario: at `(0,0)`, A and B each
have a sloop and C has a galleon. -/
def boardSinkThree : Board :=
  (((initializeBoard.placeShip (createHexCoord 0 0) ⟨ShipType.SLOOP, "A"⟩).1.placeShip
      (createHexCoord 0 0) ⟨ShipType.SLOOP, "B"⟩).1.placeShip
      (createHexCoord 0 0) ⟨ShipType.GALLEON, "C"⟩).1

/-- State for the amended-additional-sink scenario. -/
def sSinkThree : GameState :=
  ⟨[playerSinkActor, playerSinkVictim, playerThird], boardSinkThree, ⟨[], []⟩, none⟩

/-- The cell of that scenario as a literal. -/
def hexSinkThree : Hex :=
  ⟨createHexCoord 0 0,
   [⟨ShipType.SLOOP, "A"⟩, ⟨ShipType.SLOOP, "B"⟩, ⟨ShipType.GALLEON, "C"⟩], none⟩

/-- Sink of B's sloop at `(0,0)` with the additional sink aimed at C's
galleon, one bribe. -/
def sinkExtraThree : SinkAction :=
  ⟨"A", createHexCoord 0 0, ShipType.SLOOP, "B", 1, none, some (ShipType.GALLEON, "C")⟩

/-- An island on `(0,0)` whose impassable edges contain direction 0 (east,
toward `(1,0)`). -/
def islandEastBlocked : Island := ⟨"Tortuga", createHexCoord 0 0, [0]⟩

/-- Board with only that island; the neighbor `(1,0)` hosts no island. -/
def boardEdgeBlocked : Board := (initializeBoard.placeIsland islandEastBlocked).1

/-- Islands on the adjacent cells `(0,0)` and `(1,0)`, no impassable
edges. -/
def islandHavana : Island := ⟨"Havana", createHexCoord 0 0, []⟩

/-- Second island of the smuggler-route scenario. -/
def islandNassau : Island := ⟨"Nassau", createHexCoord 1 0, []⟩

/-- Board for the smuggler-route scenario: the two islands with one sloop of
A on each of their cells. -/
def boardRoute : Board :=
  ((((initializeBoard.placeIsland islandHavana).1.placeIsland islandNassau).1.placeShip
      (createHexCoord 0 0) ⟨ShipType.SLOOP, "A"⟩).1.placeShip
      (createHexCoord 1 0) ⟨ShipType.SLOOP, "A"⟩).1

/-- The Havana-Nassau smuggler route chart. -/
def chartRoute : SmugglerRouteChart := ⟨"route-1", "Havana", "Nassau"⟩

/-- Deck with three cards in the draw pile and one discarded. -/
def deckThree : ChartDeck := ⟨[⟨"c1"⟩, ⟨"c2"⟩, ⟨"c3"⟩], [⟨"c9"⟩]⟩

/-- Player A with two doubloons for the chart-draw scenario. -/
def playerChartDrawer : Player := ⟨"A", 0, 2, 2, 0, 0, none, []⟩

/-- State for the chart-draw scenario. -/
def sChartDraw : GameState := ⟨[playerChartDrawer], initializeBoard, deckThree, none⟩

/-- Chart action with one bribe, no selection, no pending draw. -/
def chartDrawNoSelection : ChartAction := ⟨"A", 1, false, false, [], none⟩

/-! # Theorems -/

/-- C1: For each of the five actions (Sail, Build, Steal, Sink, Chart), if
validate on a state returns invalid, then execute on that same state returns
a failure result (`success = false`) and leaves the entire game state —
board cells, ship inventories, doubloons, notoriety, chart deck — unchanged:
the state paired with the result is the input state itself. -/
theorem c1_invalid_validate_makes_execute_a_no_op :
    (∀ m : String, (createFailureResult m).success = false) ∧
    (∀ (a : SailAction) (s : GameState), (a.validate s).valid = false →
      a.execute s = some (createFailureResult (reasonOr (a.validate s).reason), s)) ∧
    (∀ (a : BuildAction) (s : GameState), (a.validate s).valid = false →
      a.execute s = some (createFailureResult (reasonOr (a.validate s).reason), s)) ∧
    (∀ (a : StealAction) (s : GameState), (a.validate s).valid = false →
      a.execute s = some (createFailureResult (reasonOr (a.validate s).reason), s)) ∧
    (∀ (a : SinkAction) (s : GameState), (a.validate s).valid = false →
      a.execute s = some (createFailureResult (reasonOr (a.validate s).reason), s)) ∧
    (∀ (shuffle : List Chart → List Chart) (a : ChartAction) (s : GameState),
      (a.validate s).valid = false →
      ChartAction.execute shuffle a s = some (createFailureResult (reasonOr (a.validate s).reason), s)) := by
  refine ⟨fun m => rfl, ?_, ?_, ?_, ?_, ?_⟩
  · intro a s hv
    simp [SailAction.execute, hv]
  · intro a s hv
    simp [BuildAction.execute, hv]
  · intro a s hv
    simp [StealAction.execute, hv]
  · intro a s hv
    simp [SinkAction.execute, hv]
  · intro shuffle a s hv
    simp [ChartAction.execute, hv]

/-- Witness for C1: on the state with no registered players, each of the
five actions fails validation and executes to a failure result paired with
the untouched state. -/
theorem c1_invalid_validate_makes_execute_a_no_op_witness :
    ((SailAction.validate ⟨"Z", [], 0⟩ sNoPlayers).valid = false ∧
      SailAction.execute ⟨"Z", [], 0⟩ sNoPlayers =
        some (createFailureResult (reasonOr (SailAction.validate ⟨"Z", [], 0⟩ sNoPlayers).reason), sNoPlayers)) ∧
    ((BuildAction.validate ⟨"Z", [], 0⟩ sNoPlayers).valid = false ∧
      BuildAction.execute ⟨"Z", [], 0⟩ sNoPlayers =
        some (createFailureResult (reasonOr (BuildAction.validate ⟨"Z", [], 0⟩ sNoPlayers).reason), sNoPlayers)) ∧
    ((StealAction.validate ⟨"Z", createHexCoord 0 0, "B"⟩ sNoPlayers).valid = false ∧
      StealAction.execute ⟨"Z", createHexCoord 0 0, "B"⟩ sNoPlayers =
        some (createFailureResult (reasonOr (StealAction.validate ⟨"Z", createHexCoord 0 0, "B"⟩ sNoPlayers).reason), sNoPlayers)) ∧
    ((SinkAction.validate ⟨"Z", createHexCoord 0 0, ShipType.SLOOP, "B", 0, none, none⟩ sNoPlayers).valid = false ∧
      SinkAction.execute ⟨"Z", createHexCoord 0 0, ShipType.SLOOP, "B", 0, none, none⟩ sNoPlayers =
        some (createFailureResult (reasonOr (SinkAction.validate ⟨"Z", createHexCoord 0 0, ShipType.SLOOP, "B", 0, none, none⟩ sNoPlayers).reason), sNoPlayers)) ∧
    ((ChartAction.validate ⟨"Z", 0, false, false, [], none⟩ sNoPlayers).valid = false ∧
      ChartAction.execute id ⟨"Z", 0, false, false, [], none⟩ sNoPlayers =
        some (createFailureResult (reasonOr (ChartAction.validate ⟨"Z", 0, false, false, [], none⟩ sNoPlayers).reason), sNoPlayers)) :=
  ⟨⟨by decide, c1_invalid_validate_makes_execute_a_no_op.2.1 _ _ (by decide)⟩,
   ⟨by decide, c1_invalid_validate_makes_execute_a_no_op.2.2.1 _ _ (by decide)⟩,
   ⟨by decide, c1_invalid_validate_makes_execute_a_no_op.2.2.2.1 _ _ (by decide)⟩,
   ⟨by decide, c1_invalid_validate_makes_execute_a_no_op.2.2.2.2.1 _ _ (by decide)⟩,
   ⟨by decide, c1_invalid_validate_makes_execute_a_no_op.2.2.2.2.2 id _ _ (by decide)⟩⟩

/-- C2 (failing evaluation): the winner is the maximizer of
`getFinalScore = notoriety + doubloons`, a plain sum.  Here P1 has strictly
higher notoriety (24, which also triggers the game end) than P2 (20), yet
`determineWinner` picks P2 on the strength of P2's 10 doubloons — doubloons
are not a mere tiebreaker. -/
theorem c2_winner_ignores_notoriety_priority_eval :
    playerHighNotoriety.hasWon = true ∧
    playerHighNotoriety.notoriety > playerRichLowNotoriety.notoriety ∧
    playerHighNotoriety.getFinalScore < playerRichLowNotoriety.getFinalScore ∧
    determineWinner [playerHighNotoriety, playerRichLowNotoriety] = some playerRichLowNotoriety := by
  decide

/-- C3 (failing evaluation): `SailAction.validate` checks each requested
move independently (each at most 2 hexes along a sailable path) and never
sums a movement budget, nor does a bribe buy range: with zero bribes, two
ships each moved 2 hexes (total hop distance 4) still validate. -/
theorem c3_sail_accepts_total_distance_four_eval :
    sailTwoDoubleMoves.bribesUsed = 0 ∧
    hexDistance (createHexCoord (-2) 0) (createHexCoord 0 0) = 2 ∧
    hexDistance (createHexCoord 2 0) (createHexCoord 0 0) = 2 ∧
    SailAction.validate sailTwoDoubleMoves sSailBudget = ⟨true, ""⟩ := by
  decide

/-- C4 (failing evaluation): a single-ship move across hex distance 2 with a
traversable intermediate cell passes validation, but `execute` hands the
2-hex leap to `Board.moveShip`, which requires adjacency and whose `false`
return is ignored: the action reports success while the sloop is still in
the source cell and the destination stays empty. -/
theorem c4_two_hex_sail_silently_fails_to_move_eval :
    hexDistance (createHexCoord (-2) 0) (createHexCoord 0 0) = 2 ∧
    (SailAction.validate sailOneDoubleMove sSailTwoHex).valid = true ∧
    (SailAction.execute sailOneDoubleMove sSailTwoHex).map
      (fun rs => (rs.1.success,
        (rs.2.board.getHex (createHexCoord (-2) 0)).map Hex.ships,
        (rs.2.board.getHex (createHexCoord 0 0)).map Hex.ships)) =
      some (true, some [⟨ShipType.SLOOP, "A"⟩], some []) := by
  decide

/-- C5 (failing evaluation): Build validates each placement against the full
inventory instead of cumulatively and ignores the failure flag of
`spendShips`: a player with one sloop in inventory builds two sloops at
their port, the execution succeeds, and the on-board-plus-inventory total
for sloops rises from 1 to 2 — a ship is created from nothing and the
conservation invariant breaks. -/
theorem c5_build_creates_ship_without_inventory_eval :
    sBuildOneSloop.shipTotal "A" ShipType.SLOOP = 1 ∧
    (BuildAction.execute buildTwoSloops sBuildOneSloop).map
      (fun rs => (rs.1.success, rs.2.shipTotal "A" ShipType.SLOOP)) = some (true, 2) := by
  decide

/-- Counterexample to C6: at `(0,0)` the acting player A has influence 1 and
the victim B influence 3, and B is at least as notorious as A.  The Sink of
B's sloop with the additional-sink enhancement aimed at B's galleon
nevertheless succeeds, removes the galleon (no influence requirement,
although sinking that galleon as a primary target would require influence
1 ≥ 3), and awards 1 notoriety in total — the reward for the primary sloop
only, not the additional 3 an independently rewarded galleon sink would
add. -/
theorem c6_additional_sink_counterexample :
    boardSinkExtra.getInfluence (createHexCoord 0 0) "A" = 1 ∧
    boardSinkExtra.getInfluence (createHexCoord 0 0) "B" = 3 ∧
    (sSinkExtra.getPlayer "B").map Player.notoriety = some 0 ∧
    (sSinkExtra.getPlayer "A").map Player.notoriety = some 0 ∧
    (SinkAction.execute sinkWithExtra sSinkExtra).map
      (fun rs => (rs.1.success, rs.1.notorietyGained,
        (rs.2.board.getHex (createHexCoord 0 0)).map (fun h => h.getPlayerShips "B"),
        (rs.2.getPlayer "B").map (fun p => (p.sloops, p.galleons)))) =
      some (true, 1, some [], some (1, 1)) := by
  refine ⟨by decide, by decide, by decide, by decide, by decide⟩

/-- Counterexample to C7: the island on `(0,0)` blocks direction 0 (east,
toward `(1,0)`); the neighbor `(1,0)` hosts no island, so its own impassable
edge set blocks nothing — yet the reverse traversal from `(1,0)` back to
`(0,0)` is still false, because `canSailBetween` also consults the island of
the destination cell. -/
theorem c7_reverse_traversal_counterexample :
    getDirection (createHexCoord 0 0) (createHexCoord 1 0) = 0 ∧
    islandEastBlocked.impassableEdges.contains 0 = true ∧
    (boardEdgeBlocked.getHex (createHexCoord 1 0)).map Hex.island = some none ∧
    boardEdgeBlocked.canSailBetween (createHexCoord 0 0) (createHexCoord 1 0) = false ∧
    boardEdgeBlocked.canSailBetween (createHexCoord 1 0) (createHexCoord 0 0) = false := by
  decide

/-- C7 amended (replacing the second half of the original claim): an island
whose impassable edge set contains the direction `d` from its cell `A`
toward `B` blocks the edge in BOTH directions: `canSailBetween A B` is
false, and the reverse traversal `canSailBetween B A` is also false
regardless of what island (if any) the neighbor `B` hosts, because the edge
check consults the islands of both endpoint cells on every traversal. -/
theorem c7_island_edge_blocks_both_directions
    (b : Board) (A B : HexCoord) (hx : Hex) (isl : Island) (d : Int)
    (hA : b.getHex A = some hx) (hisl : hx.island = some isl)
    (hd : getDirection A B = d) (hdne : d ≠ -1)
    (hcont : isl.impassableEdges.contains d = true) :
    b.canSailBetween A B = false ∧ b.canSailBetween B A = false := by
  have hmem : d ∈ isl.impassableEdges := by simpa using hcont
  have hblock : (d != -1 && !(isl.canSailInDirection d)) = true := by
    simp [Island.canSailInDirection, Island.isEdgePassable, hdne, bne_iff_ne, hmem]
  constructor
  · cases hadj : b.isAdjacent A B with
    | false => simp [Board.canSailBetween, hadj]
    | true =>
      cases hB : b.getHex B with
      | none => simp [Board.canSailBetween, hadj, hA, hB]
      | some hxB =>
        simp only [Board.canSailBetween, hadj, hA, hB, hisl, hd, hblock]
        simp
  · cases hadj : b.isAdjacent B A with
    | false => simp [Board.canSailBetween, hadj]
    | true =>
      cases hB : b.getHex B with
      | none => simp [Board.canSailBetween, hadj, hB]
      | some hxB =>
        cases hislB : hxB.island with
        | none =>
          simp only [Board.canSailBetween, hadj, hA, hB, hislB, hisl, hd, hblock]
          simp
        | some islB =>
          cases hfb : (getDirection B A != -1 && !(islB.canSailInDirection (getDirection B A))) with
          | true => simp [Board.canSailBetween, hadj, hA, hB, hislB, hfb]
          | false =>
            simp only [Board.canSailBetween, hadj, hA, hB, hislB, hisl, hd, hblock, hfb]
            simp

/-- Witness for C7 amended, on the concrete board whose island at `(0,0)`
blocks direction 0 (east): traversal is refused in both directions across
that edge. -/
theorem c7_island_edge_blocks_both_directions_witness :
    boardEdgeBlocked.getHex (createHexCoord 0 0) =
      some ⟨createHexCoord 0 0, [], some islandEastBlocked⟩ ∧
    getDirection (createHexCoord 0 0) (createHexCoord 1 0) = 0 ∧
    islandEastBlocked.impassableEdges.contains 0 = true ∧
    (boardEdgeBlocked.canSailBetween (createHexCoord 0 0) (createHexCoord 1 0) = false ∧
     boardEdgeBlocked.canSailBetween (createHexCoord 1 0) (createHexCoord 0 0) = false) :=
  ⟨by decide, by decide, by decide,
   c7_island_edge_blocks_both_directions boardEdgeBlocked (createHexCoord 0 0)
     (createHexCoord 1 0) ⟨createHexCoord 0 0, [], some islandEastBlocked⟩
     islandEastBlocked 0 (by decide) (by decide) (by decide) (by decide) (by decide)⟩

/-- A fold that adds 1 whenever the predicate holds counts the satisfying
elements. -/
theorem foldl_count_if (l : List Nat) (pred : Nat → Bool) (init : Nat) :
    l.foldl (fun c t => if pred t then c + 1 else c) init = init + l.countP pred := by
  induction l generalizing init with
  | nil => simp
  | cons t rest ih =>
    simp only [List.foldl_cons, List.countP_cons]
    rw [ih]
    cases h : pred t <;> simp [h] <;> omega

/-- Function `gainNotoriety` adds the amount to the score. -/
theorem Player.gainNotoriety_notoriety (p : Player) (amount : Nat) :
    (p.gainNotoriety amount).notoriety = p.notoriety + amount := rfl

/-- Function `gainNotoriety` bumps the captain count once per threshold crossed. -/
theorem Player.gainNotoriety_captainCount (p : Player) (amount : Nat) :
    (p.gainNotoriety amount).captainCount =
      p.captainCount + CAPTAIN_UNLOCK_THRESHOLDS.countP
        (fun t => p.notoriety < t && p.notoriety + amount ≥ t) := by
  simp only [Player.gainNotoriety]
  exact foldl_count_if _ _ _

/-- C9: every single notoriety gain raises the captain count by exactly the
number of configured unlock thresholds (5 and 12) strictly crossed by that
gain; in particular a gain from 4 to 6 unlocks exactly one captain, and two
consecutive gains together unlock exactly the thresholds crossed by their
combined span — a threshold already crossed is never re-triggered by a later
gain. -/
theorem c9_captain_unlocks_cross_each_threshold_once :
    (∀ (p : Player) (amount : Nat),
      (p.gainNotoriety amount).captainCount =
        p.captainCount + CAPTAIN_UNLOCK_THRESHOLDS.countP
          (fun t => p.notoriety < t && p.notoriety + amount ≥ t)) ∧
    (∀ p : Player, p.notoriety = 4 →
      (p.gainNotoriety 2).captainCount = p.captainCount + 1) ∧
    (∀ (p : Player) (a b : Nat),
      ((p.gainNotoriety a).gainNotoriety b).captainCount =
        p.captainCount + CAPTAIN_UNLOCK_THRESHOLDS.countP
          (fun t => p.notoriety < t && p.notoriety + (a + b) ≥ t)) := by
  refine ⟨fun p amount => Player.gainNotoriety_captainCount p amount, ?_, ?_⟩
  · intro p h
    rw [Player.gainNotoriety_captainCount, h]
    rfl
  · intro p a b
    rw [Player.gainNotoriety_captainCount, Player.gainNotoriety_captainCount,
      Player.gainNotoriety_notoriety]
    simp only [CAPTAIN_UNLOCK_THRESHOLDS, List.countP_cons, List.countP_nil,
      Bool.and_eq_true, decide_eq_true_eq]
    split_ifs <;> omega

/-- The path-walking loop accepts exactly when every cell of the path exists
and holds at least one of the claimant's ships. -/
theorem checkRouteCells_valid_iff (board : Board) (playerId : String) (path : List HexCoord) :
    (checkRouteCells board playerId path).valid = true ↔
      ∀ c ∈ path, ∃ hx, board.getHex c = some hx ∧ (hx.getPlayerShips playerId).length > 0 := by
  induction path with
  | nil => simp [checkRouteCells]
  | cons c rest ih =>
    cases hc : board.getHex c with
    | none =>
      have hstep : checkRouteCells board playerId (c :: rest) =
          ⟨false, "Hex not found on path"⟩ := by
        simp [checkRouteCells, hc]
      rw [hstep]
      constructor
      · intro h
        simp at h
      · intro h
        obtain ⟨hx, hhx, -⟩ := h c (List.mem_cons_self c rest)
        rw [hc] at hhx
        cases hhx
    | some hx =>
      by_cases hlen : (hx.getPlayerShips playerId).length = 0
      · have hstep : checkRouteCells board playerId (c :: rest) =
            ⟨false, "Need at least one ship on every hex of the path"⟩ := by
          simp [checkRouteCells, hc, hlen]
        rw [hstep]
        constructor
        · intro h
          simp at h
        · intro h
          obtain ⟨hx2, hhx2, hpos⟩ := h c (List.mem_cons_self c rest)
          rw [hc] at hhx2
          cases hhx2
          omega
      · have hstep : checkRouteCells board playerId (c :: rest) =
            checkRouteCells board playerId rest := by
          simp [checkRouteCells, hc, hlen]
        rw [hstep, ih]
        constructor
        · intro h c2 hc2
          rcases List.mem_cons.mp hc2 with rfl | hmem
          · exact ⟨hx, hc, Nat.pos_of_ne_zero hlen⟩
          · exact h c2 hmem
        · intro h c2 hc2
          exact h c2 (List.mem_cons_of_mem _ hc2)

/-- C8: given that both named islands are registered on the board, a
Smuggler Route claim is valid if and only if a traversable path exists
between the two islands' cells (the discovered shortest path is nonempty)
and the claimant has at least one ship on every cell of that discovered
path; and the computed reward equals the number of cells in that path. -/
theorem c8_smuggler_route_claim_iff
    (chart : SmugglerRouteChart) (playerId : String) (board : Board)
    (islandA islandB : Island)
    (hA : board.getIslands.find? (fun i => i.name == chart.islandA) = some islandA)
    (hB : board.getIslands.find? (fun i => i.name == chart.islandB) = some islandB) :
    ((canClaimSmugglerRoute chart playerId board).valid = true ↔
      (board.findPath islandA.hexCoord islandB.hexCoord ≠ [] ∧
       ∀ c ∈ board.findPath islandA.hexCoord islandB.hexCoord,
         ∃ hx, board.getHex c = some hx ∧ (hx.getPlayerShips playerId).length > 0)) ∧
    calculateSmugglerRouteReward chart board =
      (board.findPath islandA.hexCoord islandB.hexCoord).length := by
  constructor
  · simp only [canClaimSmugglerRoute, hA, hB]
    by_cases hp : (board.findPath islandA.hexCoord islandB.hexCoord).length = 0
    · rw [if_pos hp]
      simp [List.length_eq_zero.mp hp]
    · rw [if_neg hp, checkRouteCells_valid_iff]
      have hne : board.findPath islandA.hexCoord islandB.hexCoord ≠ [] := by
        intro h
        exact hp (by simp [h])
      simp [hne]
  · simp [calculateSmugglerRouteReward, hA, hB]

/-- Witness for C8, on the concrete board with islands Havana at `(0,0)` and
Nassau at `(1,0)` and one sloop of claimant A on each: the discovered path
is the two cells, the claim validates, and the reward is 2. -/
theorem c8_smuggler_route_claim_iff_witness :
    boardRoute.getIslands.find? (fun i => i.name == chartRoute.islandA) = some islandHavana ∧
    boardRoute.getIslands.find? (fun i => i.name == chartRoute.islandB) = some islandNassau ∧
    (((canClaimSmugglerRoute chartRoute "A" boardRoute).valid = true ↔
      (boardRoute.findPath islandHavana.hexCoord islandNassau.hexCoord ≠ [] ∧
       ∀ c ∈ boardRoute.findPath islandHavana.hexCoord islandNassau.hexCoord,
         ∃ hx, boardRoute.getHex c = some hx ∧ (hx.getPlayerShips "A").length > 0)) ∧
     calculateSmugglerRouteReward chartRoute boardRoute =
       (boardRoute.findPath islandHavana.hexCoord islandNassau.hexCoord).length) ∧
    (canClaimSmugglerRoute chartRoute "A" boardRoute).valid = true ∧
    calculateSmugglerRouteReward chartRoute boardRoute = 2 :=
  ⟨by decide, by decide,
   c8_smuggler_route_claim_iff chartRoute "A" boardRoute islandHavana islandNassau
     (by decide) (by decide),
   by decide, by decide⟩

/-- Drawing exactly the `zs.length` back cards of a sufficient draw pile
pops them back-to-front, never reshuffles, and leaves the discard pile
alone. -/
theorem drawChartsLoop_pops_back (shuffle : List Chart → List Chart)
    (ys zs discard drawn : List Chart) :
    drawChartsLoop shuffle zs.length ⟨ys ++ zs, discard⟩ drawn =
      (drawn ++ zs.reverse, ⟨ys, discard⟩) := by
  induction zs using List.reverseRecOn generalizing drawn with
  | nil => simp [drawChartsLoop]
  | append_singleton zs' z ih =>
    have hlen : (zs' ++ [z]).length = zs'.length + 1 := by simp
    rw [hlen]
    have hne : (ys ++ (zs' ++ [z])).isEmpty = false := by simp
    have hlast : (ys ++ (zs' ++ [z])).getLast? = some z := by
      rw [← List.append_assoc]
      exact List.getLast?_concat _
    have hdrop : (ys ++ (zs' ++ [z])).dropLast = ys ++ zs' := by
      rw [← List.append_assoc]
      exact List.dropLast_concat
    simp only [drawChartsLoop, hne, Bool.false_and, if_neg (by simp : ¬(false = true)),
      hlast, hdrop]
    rw [ih]
    simp

/-- Function `updateFirstPlayer` through the lens of `find?`: updating the found
player with an id-preserving function updates exactly the `find?` image. -/
theorem find?_updateFirstPlayer_self (ps : List Player) (playerId : String)
    (f : Player → Player) (p : Player)
    (hfid : ∀ q, (f q).id = q.id)
    (hp : ps.find? (fun q => q.id == playerId) = some p) :
    (updateFirstPlayer ps playerId f).find? (fun q => q.id == playerId) = some (f p) := by
  induction ps with
  | nil => simp at hp
  | cons q rest ih =>
    by_cases h : (q.id == playerId) = true
    · simp only [List.find?_cons, h, Option.some.injEq] at hp
      subst hp
      have h2 : ((f q).id == playerId) = true := by rw [hfid]; exact h
      simp only [updateFirstPlayer, if_pos h, List.find?_cons, h2]
    · have hfalse : (q.id == playerId) = false := by simpa using h
      simp only [List.find?_cons, hfalse] at hp
      simp only [updateFirstPlayer, if_neg h]
      simp only [List.find?_cons, hfalse]
      exact ih hp

/-- Updating a player with some other id (via an id-preserving function)
leaves a `find?` for this id untouched. -/
theorem find?_updateFirstPlayer_other (ps : List Player) (playerId otherId : String)
    (f : Player → Player)
    (hfid : ∀ q, (f q).id = q.id)
    (hne : playerId ≠ otherId) :
    (updateFirstPlayer ps otherId f).find? (fun q => q.id == playerId) =
      ps.find? (fun q => q.id == playerId) := by
  induction ps with
  | nil => simp [updateFirstPlayer]
  | cons q rest ih =>
    by_cases h : (q.id == otherId) = true
    · have hq : q.id = otherId := by simpa using h
      have h1 : ((f q).id == playerId) = false := by
        rw [hfid, hq]
        exact beq_eq_false_iff_ne.mpr (Ne.symm hne)
      have h2 : (q.id == playerId) = false := by
        rw [hq]
        exact beq_eq_false_iff_ne.mpr (Ne.symm hne)
      simp only [updateFirstPlayer, if_pos h, List.find?_cons, h1, h2]
    · simp only [updateFirstPlayer, if_neg h]
      by_cases hq : (q.id == playerId) = true
      · simp only [List.find?_cons, hq]
      · have hqf : (q.id == playerId) = false := by simpa using hq
        simp only [List.find?_cons, hqf]
        exact ih

/-- Function `GameState.getPlayer` after `updatePlayer` on the same id. -/
theorem getPlayer_updatePlayer_self (s : GameState) (playerId : String)
    (f : Player → Player) (p : Player)
    (hfid : ∀ q, (f q).id = q.id)
    (hp : s.getPlayer playerId = some p) :
    (s.updatePlayer playerId f).getPlayer playerId = some (f p) :=
  find?_updateFirstPlayer_self s.players playerId f p hfid hp

/-- Function `GameState.getPlayer` after `updatePlayer` on another id. -/
theorem getPlayer_updatePlayer_other (s : GameState) (playerId otherId : String)
    (f : Player → Player)
    (hfid : ∀ q, (f q).id = q.id)
    (hne : playerId ≠ otherId) :
    (s.updatePlayer otherId f).getPlayer playerId = s.getPlayer playerId :=
  find?_updateFirstPlayer_other s.players playerId otherId f hfid hne

/-- C10: executing a valid Chart action with no chart selection and no
pending draw mutates the state before completing: the bribe doubloons are
spent and the drawn cards leave the draw pile, yet the result reports
`success = false` with message `CHART_SELECTION_REQUIRED`, and at that point
the drawn cards sit in neither the player hand nor the discard pile. -/
theorem c10_chart_draw_selection_required
    (shuffle : List Chart → List Chart) (playerId : String) (bribes : Nat)
    (dX kX : Bool) (s : GameState) (p : Player) (ys zs : List Chart)
    (hp : s.getPlayer playerId = some p)
    (hb : bribes ≤ p.doubloons)
    (hpile : s.chartDeck.drawPile = ys ++ zs)
    (hlen : zs.length = (if dX then 3 else 2))
    (hhand : ∀ c ∈ zs, c ∉ p.charts)
    (hdisc : ∀ c ∈ zs, c ∉ s.chartDeck.discardPile) :
    ∃ res s1 p1,
      ChartAction.execute shuffle ⟨playerId, bribes, dX, kX, [], none⟩ s = some (res, s1) ∧
      res.success = false ∧
      res.message = "CHART_SELECTION_REQUIRED" ∧
      res.drawnCharts = zs.reverse ∧
      s1.chartDeck.drawPile = ys ∧
      s1.chartDeck.discardPile = s.chartDeck.discardPile ∧
      s1.getPlayer playerId = some p1 ∧
      p1.doubloons = p.doubloons - bribes ∧
      p1.charts = p.charts ∧
      (∀ c ∈ res.drawnCharts, c ∉ p1.charts ∧ c ∉ s1.chartDeck.discardPile) := by
  have hvalid : (ChartAction.validate ⟨playerId, bribes, dX, kX, [], none⟩ s) = ⟨true, ""⟩ := by
    simp only [ChartAction.validate, validatePlayer, hp]
    rw [if_neg (by simp)]
    rw [if_neg (by omega)]
    simp
  have hdeckeq : (s.chartDeck : ChartDeck) = ⟨ys ++ zs, s.chartDeck.discardPile⟩ := by
    cases hdk : s.chartDeck with
    | mk dp dc =>
      rw [hdk] at hpile
      simp only at hpile
      simp only [hpile]
  have hdraw : s.chartDeck.drawCharts shuffle (if dX then 3 else 2) =
      (zs.reverse, ⟨ys, s.chartDeck.discardPile⟩) := by
    rw [ChartDeck.drawCharts, ← hlen, hdeckeq, drawChartsLoop_pops_back]
    simp
  by_cases hbz : bribes > 0
  case pos =>
    have hs1p : (s.updatePlayer playerId (fun q => (q.spendDoubloons bribes).1)).getPlayer playerId
        = some ((p.spendDoubloons bribes).1) := by
      refine getPlayer_updatePlayer_self s playerId _ p ?_ hp
      intro q
      simp only [Player.spendDoubloons]
      split <;> rfl
    have hspend : (p.spendDoubloons bribes).1 = { p with doubloons := p.doubloons - bribes } := by
      simp only [Player.spendDoubloons]
      rw [if_neg (by omega)]
    have hexec : ChartAction.execute shuffle ⟨playerId, bribes, dX, kX, [], none⟩ s =
        some ({ success := false, message := "CHART_SELECTION_REQUIRED",
                notorietyGained := 0, doubloonsGained := 0, drawnCharts := zs.reverse },
              { s.updatePlayer playerId (fun q => (q.spendDoubloons bribes).1) with
                  chartDeck := ⟨ys, s.chartDeck.discardPile⟩ }) := by
      simp only [ChartAction.execute, hvalid]
      rw [if_neg (by simp)]
      simp only [hp]
      rw [if_pos (by simp)]
      rw [if_pos hbz]
      have : (s.updatePlayer playerId (fun q => (q.spendDoubloons bribes).1)).chartDeck
          = s.chartDeck := rfl
      simp only [this, hdraw]
    refine ⟨_, _, (p.spendDoubloons bribes).1, hexec, rfl, rfl, rfl, rfl, rfl, ?_, ?_, ?_, ?_⟩
    · exact hs1p
    · rw [hspend]
    · rw [hspend]
    · intro c hc
      have hzc : c ∈ zs := by simpa using hc
      rw [hspend]
      exact ⟨hhand c hzc, hdisc c hzc⟩
  case neg =>
    have hb0 : bribes = 0 := by omega
    have hexec : ChartAction.execute shuffle ⟨playerId, bribes, dX, kX, [], none⟩ s =
        some ({ success := false, message := "CHART_SELECTION_REQUIRED",
                notorietyGained := 0, doubloonsGained := 0, drawnCharts := zs.reverse },
              { s with chartDeck := ⟨ys, s.chartDeck.discardPile⟩ }) := by
      simp only [ChartAction.execute, hvalid]
      rw [if_neg (by simp)]
      simp only [hp]
      rw [if_pos (by simp)]
      rw [if_neg (by omega)]
      simp only [hdraw]
    refine ⟨_, _, p, hexec, rfl, rfl, rfl, rfl, rfl, hp, by omega, rfl, ?_⟩
    intro c hc
    have hzc : c ∈ zs := by simpa using hc
    exact ⟨hhand c hzc, hdisc c hzc⟩

/-- Witness for C10: the concrete player A (2 doubloons) drawing with one
bribe from the pile `[c1, c2, c3]` (discard `[c9]`): the execution stops at
`CHART_SELECTION_REQUIRED` with `c3, c2` drawn, pile `[c1]`, discard
untouched, one doubloon spent, hand still empty. -/
theorem c10_chart_draw_selection_required_witness :
    (sChartDraw.getPlayer "A" = some playerChartDrawer ∧
     1 ≤ playerChartDrawer.doubloons ∧
     sChartDraw.chartDeck.drawPile = [⟨"c1"⟩] ++ [⟨"c2"⟩, ⟨"c3"⟩] ∧
     ([⟨"c2"⟩, ⟨"c3"⟩] : List Chart).length = (if false then 3 else 2) ∧
     (∀ c ∈ ([⟨"c2"⟩, ⟨"c3"⟩] : List Chart), c ∉ playerChartDrawer.charts) ∧
     (∀ c ∈ ([⟨"c2"⟩, ⟨"c3"⟩] : List Chart), c ∉ sChartDraw.chartDeck.discardPile)) ∧
    (∃ res s1 p1,
      ChartAction.execute id ⟨"A", 1, false, false, [], none⟩ sChartDraw = some (res, s1) ∧
      res.success = false ∧
      res.message = "CHART_SELECTION_REQUIRED" ∧
      res.drawnCharts = ([⟨"c2"⟩, ⟨"c3"⟩] : List Chart).reverse ∧
      s1.chartDeck.drawPile = [⟨"c1"⟩] ∧
      s1.chartDeck.discardPile = sChartDraw.chartDeck.discardPile ∧
      s1.getPlayer "A" = some p1 ∧
      p1.doubloons = playerChartDrawer.doubloons - 1 ∧
      p1.charts = playerChartDrawer.charts ∧
      (∀ c ∈ res.drawnCharts, c ∉ p1.charts ∧ c ∉ s1.chartDeck.discardPile)) :=
  ⟨⟨by decide, by decide, by decide, by decide, by decide, by decide⟩,
   c10_chart_draw_selection_required id "A" 1 false false sChartDraw playerChartDrawer
     [⟨"c1"⟩] [⟨"c2"⟩, ⟨"c3"⟩]
     (by decide) (by decide) (by decide) (by decide) (by decide) (by decide)⟩


theorem Hex.removeShip_coord (h : Hex) (sh : Ship) : (h.removeShip sh).coord = h.coord := by
  simp only [Hex.removeShip, Hex.removeShipB]
  split <;> rfl

theorem getHex_updateHexList_self (hs : List Hex) (c : HexCoord) (f : Hex → Hex) (h : Hex)
    (hcoord : (f h).coord = h.coord)
    (hfind : hs.find? (fun x => x.coord.q == c.q && x.coord.r == c.r) = some h) :
    (updateHexList hs c f).find? (fun x => x.coord.q == c.q && x.coord.r == c.r) = some (f h) := by
  induction hs with
  | nil => simp at hfind
  | cons x rest ih =>
    by_cases hx : (x.coord.q == c.q && x.coord.r == c.r) = true
    · simp only [List.find?_cons, hx, Option.some.injEq] at hfind
      subst hfind
      have h2 : ((f x).coord.q == c.q && (f x).coord.r == c.r) = true := by rw [hcoord]; exact hx
      simp only [updateHexList, if_pos hx, List.find?_cons, h2]
    · have hxf : (x.coord.q == c.q && x.coord.r == c.r) = false := by simpa using hx
      simp only [List.find?_cons, hxf] at hfind
      simp only [updateHexList, if_neg hx]
      simp only [List.find?_cons, hxf]
      exact ih hfind

theorem getHex_updateHex_self (b : Board) (c : HexCoord) (f : Hex → Hex) (h : Hex)
    (hcoord : (f h).coord = h.coord)
    (hfind : b.getHex c = some h) :
    (b.updateHex c f).getHex c = some (f h) :=
  getHex_updateHexList_self b.hexes c f h hcoord hfind

theorem Player.returnShips_id (p : Player) (k : InvKind) (n : Nat) :
    (p.returnShips k n).id = p.id := by
  cases k <;> rfl

theorem Player.returnShips_notoriety (p : Player) (k : InvKind) (n : Nat) :
    (p.returnShips k n).notoriety = p.notoriety := by
  cases k <;> rfl

/-- The additional-sink step, in a cell where a ship of the named kind and
owner is present and the owner is a registered player: the ship is removed
from the cell and returned to the owner's inventory.  No influence is
consulted. -/
theorem SinkAction.additionalSinkStep_spec (targetHex : HexCoord) (hex1 : Hex) (s : GameState)
    (kind : ShipType) (addPid : String) (addShip : Ship) (ap : Player)
    (hfind : (hex1.getPlayerShips addPid).find? (fun sh => sh.type == kind) = some addShip)
    (hap : s.getPlayer addPid = some ap)
    (hkind : kind = ShipType.SLOOP ∨ kind = ShipType.GALLEON) :
    SinkAction.additionalSinkStep targetHex hex1 s (some (kind, addPid)) =
      ({ s with board := s.board.updateHex targetHex fun _ => hex1.removeShip addShip }).updatePlayer addPid
        (fun t => t.returnShips
          (if kind == ShipType.SLOOP then InvKind.sloops else InvKind.galleons) 1) := by
  have hap2 : (GameState.mk s.players
      (s.board.updateHex targetHex (fun _ => hex1.removeShip addShip))
      s.chartDeck s.windTokenHolder).getPlayer addPid = some ap := hap
  rcases hkind with h | h <;> subst h <;>
    simp only [SinkAction.additionalSinkStep, hfind, SinkAction.returnSunkShip, hap2] <;> simp

/-- The post-bribe core of a Sink of an opposing sloop with the
additional-sink enhancement aimed at a galleon of a third owner: the core
succeeds, awards only the primary reward (1 when the target owner is at
least as notorious, else 0), removes the galleon, and returns it to its
owner's inventory — with no influence hypothesis anywhere. -/
theorem SinkAction.executeCore_spec
    (a : SinkAction) (s1 : GameState) (kind : ShipType) (addPid : String)
    (tp1 p1 ap1 : Player) (hex : Hex) (primShip addShip : Ship)
    (hms : a.moveSloop = none)
    (hadd : a.additionalSink = some (kind, addPid))
    (hhex : s1.board.getHex a.targetHex = some hex)
    (hfind : (hex.getPlayerShips a.targetPlayerId).find? (fun sh => sh.type == a.targetShip) = some primShip)
    (haddfind : ((hex.removeShip primShip).getPlayerShips addPid).find? (fun sh => sh.type == kind) = some addShip)
    (ht1 : s1.getPlayer a.targetPlayerId = some tp1)
    (hp1 : s1.getPlayer a.playerId = some p1)
    (hap1 : s1.getPlayer addPid = some ap1)
    (hne1 : a.targetPlayerId ≠ a.playerId)
    (hne2 : addPid ≠ a.playerId)
    (hne3 : addPid ≠ a.targetPlayerId)
    (hts : a.targetShip = ShipType.SLOOP)
    (hkind : kind = ShipType.GALLEON) :
    ∃ res s5, a.executeCore s1 = some (res, s5) ∧
      res.success = true ∧
      res.notorietyGained = (if tp1.notoriety ≥ p1.notoriety then 1 else 0) ∧
      s5.board.getHex a.targetHex = some ((hex.removeShip primShip).removeShip addShip) ∧
      s5.getPlayer addPid = some (ap1.returnShips InvKind.galleons 1) := by
  rw [hts] at hfind
  rw [hkind] at haddfind hadd
  have e2 : (GameState.mk s1.players
      (s1.board.updateHex a.targetHex fun _ => hex.removeShip primShip)
      s1.chartDeck s1.windTokenHolder).getPlayer a.targetPlayerId = some tp1 := ht1
  have ep2 : (GameState.mk s1.players
      (s1.board.updateHex a.targetHex fun _ => hex.removeShip primShip)
      s1.chartDeck s1.windTokenHolder).getPlayer a.playerId = some p1 := hp1
  have ea2 : (GameState.mk s1.players
      (s1.board.updateHex a.targetHex fun _ => hex.removeShip primShip)
      s1.chartDeck s1.windTokenHolder).getPlayer addPid = some ap1 := hap1
  have hretid : ∀ q : Player, (q.returnShips InvKind.sloops 1).id = q.id :=
    fun q => Player.returnShips_id q _ _
  have hsMid : SinkAction.returnSunkShip (GameState.mk s1.players
      (s1.board.updateHex a.targetHex fun _ => hex.removeShip primShip)
      s1.chartDeck s1.windTokenHolder) a.targetPlayerId ShipType.SLOOP =
      (GameState.mk s1.players
        (s1.board.updateHex a.targetHex fun _ => hex.removeShip primShip)
        s1.chartDeck s1.windTokenHolder).updatePlayer a.targetPlayerId
        (fun t => t.returnShips InvKind.sloops 1) := by
    simp only [SinkAction.returnSunkShip, e2]
    simp
  simp only [SinkAction.executeCore, SinkAction.moveSloopStep, hms, hhex, hfind, hts, hsMid]
  have e_t : ((GameState.mk s1.players
      (s1.board.updateHex a.targetHex fun _ => hex.removeShip primShip)
      s1.chartDeck s1.windTokenHolder).updatePlayer a.targetPlayerId
        (fun t => t.returnShips InvKind.sloops 1)).getPlayer a.targetPlayerId =
      some (tp1.returnShips InvKind.sloops 1) :=
    getPlayer_updatePlayer_self _ _ _ tp1 hretid e2
  have e_p : ((GameState.mk s1.players
      (s1.board.updateHex a.targetHex fun _ => hex.removeShip primShip)
      s1.chartDeck s1.windTokenHolder).updatePlayer a.targetPlayerId
        (fun t => t.returnShips InvKind.sloops 1)).getPlayer a.playerId = some p1 :=
    (getPlayer_updatePlayer_other _ a.playerId a.targetPlayerId _ hretid (Ne.symm hne1)).trans ep2
  have e_a : ((GameState.mk s1.players
      (s1.board.updateHex a.targetHex fun _ => hex.removeShip primShip)
      s1.chartDeck s1.windTokenHolder).updatePlayer a.targetPlayerId
        (fun t => t.returnShips InvKind.sloops 1)).getPlayer addPid = some ap1 :=
    (getPlayer_updatePlayer_other _ addPid a.targetPlayerId _ hretid hne3).trans ea2
  simp only [e_t, e_p, Player.returnShips_notoriety]
  have g1 : (s1.board.updateHex a.targetHex fun _ => hex.removeShip primShip).getHex
      a.targetHex = some (hex.removeShip primShip) :=
    getHex_updateHex_self s1.board _ _ hex (Hex.removeShip_coord hex primShip) hhex
  have g2 : ((s1.board.updateHex a.targetHex fun _ => hex.removeShip primShip).updateHex
      a.targetHex fun _ => (hex.removeShip primShip).removeShip addShip).getHex a.targetHex =
      some ((hex.removeShip primShip).removeShip addShip) :=
    getHex_updateHex_self _ _ _ (hex.removeShip primShip) (Hex.removeShip_coord _ _) g1
  by_cases hcmp : tp1.notoriety ≥ p1.notoriety
  case pos =>
    simp only [if_pos hcmp, beq_self_eq_true, if_true]
    have e_a3 : (((GameState.mk s1.players
        (s1.board.updateHex a.targetHex fun _ => hex.removeShip primShip)
        s1.chartDeck s1.windTokenHolder).updatePlayer a.targetPlayerId
          (fun t => t.returnShips InvKind.sloops 1)).updatePlayer a.playerId
          (fun p => p.gainNotoriety 1)).getPlayer addPid = some ap1 :=
      (getPlayer_updatePlayer_other _ addPid a.playerId (fun p => p.gainNotoriety 1)
        (fun q => rfl) hne2).trans e_a
    have hstep := SinkAction.additionalSinkStep_spec a.targetHex (hex.removeShip primShip) _
      ShipType.GALLEON addPid addShip ap1 haddfind e_a3 (Or.inr rfl)
    simp only [hadd, hstep]
    refine ⟨_, _, rfl, rfl, rfl, ?_, ?_⟩
    · exact g2
    · exact getPlayer_updatePlayer_self _ _ _ ap1 (fun q => Player.returnShips_id q _ _) e_a3
  case neg =>
    simp only [if_neg hcmp]
    have hstep := SinkAction.additionalSinkStep_spec a.targetHex (hex.removeShip primShip) _
      ShipType.GALLEON addPid addShip ap1 haddfind e_a (Or.inr rfl)
    simp only [hadd, hstep]
    refine ⟨_, _, rfl, rfl, rfl, ?_, ?_⟩
    · exact g2
    · exact getPlayer_updatePlayer_self _ _ _ ap1 (fun q => Player.returnShips_id q _ _) e_a

/-- C6 amended: the additional-sink enhancement removes the named ship from
the cell with NO influence requirement and NO notoriety reward of its own.
For a valid Sink of an opposing sloop whose additional sink names a galleon
of another owner present in the cell after the primary sink, execute
succeeds, its notoriety reward is exactly the primary sloop's (1 when the
target owner is at least as notorious than the actor, else 0, never the
galleon's 3), the galleon is removed from the cell, and it returns to its
owner's inventory.  No hypothesis about influence is needed. -/
theorem c6_additional_sink_amended
    (a : SinkAction) (s : GameState) (addPid : String)
    (p0 tp ap : Player) (hex : Hex) (primShip addShip : Ship)
    (hadd : a.additionalSink = some (ShipType.GALLEON, addPid))
    (hms : a.moveSloop = none)
    (hts : a.targetShip = ShipType.SLOOP)
    (hv : (a.validate s).valid = true)
    (hp : s.getPlayer a.playerId = some p0)
    (ht : s.getPlayer a.targetPlayerId = some tp)
    (hap : s.getPlayer addPid = some ap)
    (hne1 : a.targetPlayerId ≠ a.playerId)
    (hne2 : addPid ≠ a.playerId)
    (hne3 : addPid ≠ a.targetPlayerId)
    (hhex : s.board.getHex a.targetHex = some hex)
    (hfind : (hex.getPlayerShips a.targetPlayerId).find? (fun sh => sh.type == a.targetShip) = some primShip)
    (haddfind : ((hex.removeShip primShip).getPlayerShips addPid).find? (fun sh => sh.type == ShipType.GALLEON) = some addShip) :
    ∃ res s5, a.execute s = some (res, s5) ∧
      res.success = true ∧
      res.notorietyGained = (if tp.notoriety ≥ p0.notoriety then 1 else 0) ∧
      s5.board.getHex a.targetHex = some ((hex.removeShip primShip).removeShip addShip) ∧
      s5.getPlayer addPid = some (ap.returnShips InvKind.galleons 1) := by
  by_cases hbz : a.bribesUsed > 0
  case pos =>
    have hsid : ∀ q : Player, ((q.spendDoubloons a.bribesUsed).1).id = q.id := by
      intro q
      simp only [Player.spendDoubloons]
      split <;> rfl
    have hnot : ((p0.spendDoubloons a.bribesUsed).1).notoriety = p0.notoriety := by
      simp only [Player.spendDoubloons]
      split <;> rfl
    have ht1 : (s.updatePlayer a.playerId
        (fun p => (p.spendDoubloons a.bribesUsed).1)).getPlayer a.targetPlayerId = some tp :=
      (getPlayer_updatePlayer_other _ a.targetPlayerId a.playerId _ hsid hne1).trans ht
    have hp1 : (s.updatePlayer a.playerId
        (fun p => (p.spendDoubloons a.bribesUsed).1)).getPlayer a.playerId =
        some ((p0.spendDoubloons a.bribesUsed).1) :=
      getPlayer_updatePlayer_self _ _ _ p0 hsid hp
    have hap1 : (s.updatePlayer a.playerId
        (fun p => (p.spendDoubloons a.bribesUsed).1)).getPlayer addPid = some ap :=
      (getPlayer_updatePlayer_other _ addPid a.playerId _ hsid hne2).trans hap
    have hhex1 : (s.updatePlayer a.playerId
        (fun p => (p.spendDoubloons a.bribesUsed).1)).board.getHex a.targetHex = some hex := hhex
    obtain ⟨res, s5, hcore, hsucc, hnotg, hboard, hplayer⟩ :=
      SinkAction.executeCore_spec a _ ShipType.GALLEON addPid tp
        ((p0.spendDoubloons a.bribesUsed).1) ap hex primShip addShip
        hms hadd hhex1 hfind haddfind ht1 hp1 hap1 hne1 hne2 hne3 hts rfl
    rw [hnot] at hnotg
    refine ⟨res, s5, ?_, hsucc, hnotg, hboard, hplayer⟩
    simp only [SinkAction.execute]
    rw [if_neg (by simp [hv])]
    simp only [hp]
    rw [if_pos hbz]
    exact hcore
  case neg =>
    obtain ⟨res, s5, hcore, hsucc, hnotg, hboard, hplayer⟩ :=
      SinkAction.executeCore_spec a s ShipType.GALLEON addPid tp p0 ap hex primShip addShip
        hms hadd hhex hfind haddfind ht hp hap hne1 hne2 hne3 hts rfl
    refine ⟨res, s5, ?_, hsucc, hnotg, hboard, hplayer⟩
    simp only [SinkAction.execute]
    rw [if_neg (by simp [hv])]
    simp only [hp]
    rw [if_neg hbz]
    exact hcore


/-- Witness for C6 amended: A (influence 1) sinks B's sloop at `(0,0)` and
additionally sinks C's galleon (B and C both at notoriety 0, like A): the
action succeeds with 1 notoriety, the galleon leaves the cell and returns to
C's inventory. -/
theorem c6_additional_sink_amended_witness :
    (sinkExtraThree.additionalSink = some (ShipType.GALLEON, "C") ∧
     sinkExtraThree.moveSloop = none ∧
     sinkExtraThree.targetShip = ShipType.SLOOP ∧
     (sinkExtraThree.validate sSinkThree).valid = true ∧
     sSinkThree.getPlayer "A" = some playerSinkActor ∧
     sSinkThree.getPlayer "B" = some playerSinkVictim ∧
     sSinkThree.getPlayer "C" = some playerThird ∧
     sSinkThree.board.getHex (createHexCoord 0 0) = some hexSinkThree ∧
     (hexSinkThree.getPlayerShips "B").find? (fun sh => sh.type == ShipType.SLOOP) =
       some ⟨ShipType.SLOOP, "B"⟩ ∧
     ((hexSinkThree.removeShip ⟨ShipType.SLOOP, "B"⟩).getPlayerShips "C").find?
       (fun sh => sh.type == ShipType.GALLEON) = some ⟨ShipType.GALLEON, "C"⟩) ∧
    (∃ res s5, sinkExtraThree.execute sSinkThree = some (res, s5) ∧
      res.success = true ∧
      res.notorietyGained =
        (if playerSinkVictim.notoriety ≥ playerSinkActor.notoriety then 1 else 0) ∧
      s5.board.getHex (createHexCoord 0 0) =
        some ((hexSinkThree.removeShip ⟨ShipType.SLOOP, "B"⟩).removeShip
          ⟨ShipType.GALLEON, "C"⟩) ∧
      s5.getPlayer "C" = some (playerThird.returnShips InvKind.galleons 1)) :=
  ⟨⟨rfl, rfl, rfl, by decide, by decide, by decide, by decide, by decide, by decide, by decide⟩,
   c6_additional_sink_amended sinkExtraThree sSinkThree "C"
     playerSinkActor playerSinkVictim playerThird hexSinkThree
     ⟨ShipType.SLOOP, "B"⟩ ⟨ShipType.GALLEON, "C"⟩
     rfl rfl rfl (by decide) (by decide) (by decide) (by decide)
     (by decide) (by decide) (by decide) (by decide) (by decide) (by decide)⟩

/-- Witness for C9: a player at 4 notoriety gaining 2 (crossing only the
threshold 5) goes from 2 captains to 3. -/
theorem c9_captain_unlocks_cross_each_threshold_once_witness :
    (⟨"A", 4, 0, 2, 0, 0, none, []⟩ : Player).notoriety = 4 ∧
    ((⟨"A", 4, 0, 2, 0, 0, none, []⟩ : Player).gainNotoriety 2).captainCount = 2 + 1 :=
  ⟨by decide, c9_captain_unlocks_cross_each_threshold_once.2.1 _ (by decide)⟩

end Notorious
